/-
Verification development for the child-llm consciousness-generation pipeline.

This file shallowly embeds the parts of the repository that the verified
claims are about:

  * `src/child_llm/pipeline/planner.py`   (HourPlanner)
  * `src/child_llm/pipeline/generator.py` (ConsciousnessGenerator fallback path)
  * `src/child_llm/pipeline/orchestrator.py` (MonologueOrchestrator.generate_day)
  * `src/chunked_two_pass_generator.py`   (recovery tiers, retry loop, memory)

Python dicts that carry JSON data are embedded as a `Json` inductive; Python
machine behaviour that can raise (list indexing, dict `[]` access) is embedded
as `Option`-valued functions, where `none` is an uncaught exception.  External
boundaries (the generative-text service, the vocabulary files on disk) are
passed in as explicit parameters, matching the interface description of the
specification.  All definitions are executable.
-/
import Mathlib

namespace ChildLLM

/-! ### Python-style list and string helpers -/

/-- Python `l[-n:]`: the last `n` elements (all of `l` when `l` is shorter). -/
def pyTakeLast (n : Nat) (l : List α) : List α := l.drop (l.length - n)

/-- Python `range(a, b)` as a list of naturals (empty when `b ≤ a`). -/
def pyRangeList (a b : Nat) : List Nat := List.range' a (b - a)

/-- Helper for substring search over character lists. -/
def containsSubAux (hay needle : List Char) : Bool :=
  match hay with
  | [] => needle.isEmpty
  | _ :: t => needle.isPrefixOf hay || containsSubAux t needle

/-- Python `needle in hay` for strings. -/
def substrB (needle hay : String) : Bool :=
  containsSubAux hay.toList needle.toList

/-- Python `str.lower()` (the strings in this code base are ASCII). -/
def pyLower (s : String) : String := s.toLower

/-- Worker for `pySplitOn`: split a character list on a nonempty separator,
left to right, non-overlapping.  The fuel argument (initially the input
length) makes the recursion structural; it never runs out, since every step
consumes at least one character. -/
def splitOnGo (s0 : Char) (srest : List Char) :
    Nat → List Char → List Char → List (List Char)
  | _, [], acc => [acc.reverse]
  | 0, l, acc => [acc.reverse ++ l]
  | fuel + 1, c :: rest, acc =>
      if (s0 :: srest).isPrefixOf (c :: rest) then
        acc.reverse :: splitOnGo s0 srest fuel (rest.drop srest.length) []
      else splitOnGo s0 srest fuel rest (c :: acc)

/-- Python `s.split(sep)` for a nonempty separator. -/
def pySplitOn (s sep : String) : List String :=
  match sep.toList with
  | [] => [s]
  | c :: cs => (splitOnGo c cs s.toList.length s.toList []).map fun l => String.mk l

/-- Value of a nonempty all-digit character list. -/
def digitsVal : List Char → Option Nat
  | [] => none
  | [c] => if c.isDigit then some (c.toNat - 48) else none
  | c :: rest =>
      if c.isDigit then
        (digitsVal rest).map fun n => (c.toNat - 48) * 10 ^ rest.length + n
      else none

/-- Python `int(s)` for plain decimal literals (optionally signed); `none`
models the ValueError on anything else. -/
def pyToInt (s : String) : Option Int :=
  match s.toList with
  | '-' :: rest => (digitsVal rest).map fun n => -(n : Int)
  | l => (digitsVal l).map fun n => (n : Int)

/-! ### JSON values

Python dict/list/str/int/bool/None data is embedded as `Json`.  Objects are
association lists with unique keys (Python dicts parsed from JSON).  Numbers
in this repository's data are integers. -/

inductive Json where
  | null : Json
  | bool : Bool → Json
  | int : Int → Json
  | str : String → Json
  | arr : List Json → Json
  | obj : List (String × Json) → Json
deriving Repr

/-- First-match association lookup (Python dict lookup; keys are unique). -/
def lookupJson (k : String) : List (String × Json) → Option Json
  | [] => none
  | (k2, v) :: t => if k2 == k then some v else lookupJson k t

/-- Python `d.get(k, default)`. -/
def pyGetD (kvs : List (String × Json)) (k : String) (dflt : Json) : Json :=
  (lookupJson k kvs).getD dflt

/-- Python `d[k]` on a JSON value; `none` is a KeyError/TypeError. -/
def pyIndexJson (j : Json) (k : String) : Option Json :=
  match j with
  | .obj kvs => lookupJson k kvs
  | _ => none

/-- Extract a Python int; `none` is a TypeError. -/
def asInt : Json → Option Int
  | .int n => some n
  | _ => none

/-- Extract a Python str; `none` is a TypeError. -/
def asStr : Json → Option String
  | .str s => some s
  | _ => none

/-- Extract a Python str, defaulting for non-strings (used where the claims
do not depend on the TypeError behaviour). -/
def asStrD (dflt : String) : Json → String
  | .str s => s
  | _ => dflt

/-- Python truthiness of a JSON value. -/
def jsonTruthy : Json → Bool
  | .null => false
  | .bool b => b
  | .int n => n != 0
  | .str s => !s.isEmpty
  | .arr xs => !xs.isEmpty
  | .obj kvs => !kvs.isEmpty

/-- Python `==` between a JSON value and an int (`True == 1` in Python). -/
def jsonEqInt (j : Json) (w : Int) : Bool :=
  match j with
  | .int n => n == w
  | .bool b => (if b then (1 : Int) else 0) == w
  | _ => false

/-- Python `==` between a JSON value and a str. -/
def jsonEqStr (j : Json) (s : String) : Bool :=
  match j with
  | .str t => t == s
  | _ => false

mutual

/-- Structural equality of JSON values (used for Python `set` deduplication). -/
def jsonBEq : Json → Json → Bool
  | .null, .null => true
  | .bool a, .bool b => a == b
  | .int a, .int b => a == b
  | .str a, .str b => a == b
  | .arr a, .arr b => jsonListBEq a b
  | .obj a, .obj b => jsonObjBEq a b
  | _, _ => false

def jsonListBEq : List Json → List Json → Bool
  | [], [] => true
  | a :: t, b :: t2 => jsonBEq a b && jsonListBEq t t2
  | _, _ => false

def jsonObjBEq : List (String × Json) → List (String × Json) → Bool
  | [], [] => true
  | (k, v) :: t, (k2, v2) :: t2 => k == k2 && jsonBEq v v2 && jsonObjBEq t t2
  | _, _ => false

end

/-- Order-preserving deduplication (model of Python `list(set(xs))`; the set
iteration order is unspecified in Python, no claim depends on the order). -/
def dedupJson : List Json → List Json
  | [] => []
  | x :: t => x :: dedupJson (t.filter (fun y => !jsonBEq x y))
termination_by l => l.length
decreasing_by
  simp only [List.length_cons]
  exact Nat.lt_succ_of_le (List.length_filter_le _ _)

/-! ### `json.dumps(obj, sort_keys=True)`

Python's default serialization: item separator `", "`, key separator `": "`,
`ensure_ascii=True`, keys sorted by code point. -/

/-- One hexadecimal digit, lowercase. -/
def hexDigit (n : Nat) : Char :=
  if n < 10 then Char.ofNat (48 + n) else Char.ofNat (87 + n)

/-- Four lowercase hex digits for `\uXXXX` escapes. -/
def hex4 (n : Nat) : String :=
  String.mk [hexDigit ((n / 4096) % 16), hexDigit ((n / 256) % 16),
             hexDigit ((n / 16) % 16), hexDigit (n % 16)]

/-- Escape of one character inside a JSON string, as `json.dumps` emits it
with `ensure_ascii=True` (non-ASCII becomes `\uXXXX`, astral characters a
surrogate pair). -/
def escapeChar (c : Char) : String :=
  if c = '"' then "\\\""
  else if c = '\\' then "\\\\"
  else if c = '\n' then "\\n"
  else if c = '\r' then "\\r"
  else if c = '\t' then "\\t"
  else if c.toNat = 8 then "\\b"
  else if c.toNat = 12 then "\\f"
  else if c.toNat < 32 then "\\u" ++ hex4 c.toNat
  else if c.toNat < 127 then String.singleton c
  else if c.toNat < 65536 then "\\u" ++ hex4 c.toNat
  else
    "\\u" ++ hex4 (55296 + (c.toNat - 65536) / 1024) ++
    "\\u" ++ hex4 (56320 + (c.toNat - 65536) % 1024)

/-- Serialize a JSON string with surrounding quotes. -/
def dumpsStr (s : String) : String :=
  "\"" ++ String.join (s.toList.map escapeChar) ++ "\""

/-- Stable insertion into a key-sorted list of rendered pairs. -/
def insertPair (p : String × String) : List (String × String) → List (String × String)
  | [] => [p]
  | q :: t => if p.1 ≤ q.1 then p :: q :: t else q :: insertPair p t

/-- Sort rendered key/value pairs by key (Python `sort_keys=True` sorts keys
by code point, which agrees with the lexicographic `String` order). -/
def sortPairs (l : List (String × String)) : List (String × String) :=
  l.foldr insertPair []

mutual

/-- `json.dumps(j, sort_keys=True)` with Python's default separators. -/
def dumps : Json → String
  | .null => "null"
  | .bool b => if b then "true" else "false"
  | .int n => toString n
  | .str s => dumpsStr s
  | .arr xs => "[" ++ String.intercalate ", " (dumpsList xs) ++ "]"
  | .obj kvs =>
      "\x7b" ++
      String.intercalate ", "
        ((sortPairs (dumpsPairs kvs)).map fun p => dumpsStr p.1 ++ ": " ++ p.2) ++
      "\x7d"

def dumpsList : List Json → List String
  | [] => []
  | x :: t => dumps x :: dumpsList t

def dumpsPairs : List (String × Json) → List (String × String)
  | [] => []
  | (k, v) :: t => (k, dumps v) :: dumpsPairs t

end

/-! ### SHA-256 (`hashlib.sha256(...).hexdigest()`)

A direct embedding of FIPS 180-4 over `Nat` with explicit reduction
modulo `2 ^ 32`. -/

/-- Truncate to a 32-bit word. -/
def w32 (x : Nat) : Nat := x % 4294967296

/-- 32-bit rotate right. -/
def rotr32 (n x : Nat) : Nat := w32 ((x >>> n) ||| (x <<< (32 - n)))

def shaCh (x y z : Nat) : Nat := (x &&& y) ^^^ ((x ^^^ 4294967295) &&& z)

def shaMaj (x y z : Nat) : Nat := (x &&& y) ^^^ (x &&& z) ^^^ (y &&& z)

def bigSigma0 (x : Nat) : Nat := rotr32 2 x ^^^ rotr32 13 x ^^^ rotr32 22 x

def bigSigma1 (x : Nat) : Nat := rotr32 6 x ^^^ rotr32 11 x ^^^ rotr32 25 x

def smallSigma0 (x : Nat) : Nat := rotr32 7 x ^^^ rotr32 18 x ^^^ (x >>> 3)

def smallSigma1 (x : Nat) : Nat := rotr32 17 x ^^^ rotr32 19 x ^^^ (x >>> 10)

/-- The SHA-256 round constants (FIPS 180-4 §4.2.2, written in decimal). -/
def shaK : List Nat :=
  [1116352408, 1899447441, 3049323471, 3921009573, 961987163, 1508970993,
   2453635748, 2870763221, 3624381080, 310598401, 607225278, 1426881987,
   1925078388, 2162078206, 2614888103, 3248222580, 3835390401, 4022224774,
   264347078, 604807628, 770255983, 1249150122, 1555081692, 1996064986,
   2554220882, 2821834349, 2952996808, 3210313671, 3336571891, 3584528711,
   113926993, 338241895, 666307205, 773529912, 1294757372, 1396182291,
   1695183700, 1986661051, 2177026350, 2456956037, 2730485921, 2820302411,
   3259730800, 3345764771, 3516065817, 3600352804, 4094571909, 275423344,
   430227734, 506948616, 659060556, 883997877, 958139571, 1322822218,
   1537002063, 1747873779, 1955562222, 2024104815, 2227730452, 2361852424,
   2428436474, 2756734187, 3204031479, 3329325298]

/-- The SHA-256 initial hash state (FIPS 180-4 §5.3.3, written in decimal). -/
def shaH0 : List Nat :=
  [1779033703, 3144134277, 1013904242, 2773480762,
   1359893119, 2600822924, 528734635, 1541459225]

/-- UTF-8 encoding of a string (`str.encode()` in Python), as bytes. -/
def utf8Byte (c : Char) : List Nat :=
  let n := c.toNat
  if n < 128 then [n]
  else if n < 2048 then [192 + n / 64, 128 + n % 64]
  else if n < 65536 then [224 + n / 4096, 128 + (n / 64) % 64, 128 + n % 64]
  else [240 + n / 262144, 128 + (n / 4096) % 64, 128 + (n / 64) % 64, 128 + n % 64]

def utf8Encode (s : String) : List Nat := s.toList.flatMap utf8Byte

/-- Big-endian bytes of a value, fixed width. -/
def beBytes (width x : Nat) : List Nat :=
  (List.range width).map fun i => (x >>> (8 * (width - 1 - i))) % 256

/-- SHA-256 padding: `0x80`, zeros to 56 mod 64, then the 64-bit bit length. -/
def shaPad (msg : List Nat) : List Nat :=
  let padLen := (120 - (msg.length + 1) % 64) % 64
  msg ++ [128] ++ List.replicate padLen 0 ++ beBytes 8 (8 * msg.length)

/-- Split the padded message into 64-byte blocks. -/
def shaBlocks (l : List Nat) : List (List Nat) :=
  if l.length = 0 then []
  else l.take 64 :: shaBlocks (l.drop 64)
termination_by l.length
decreasing_by
  simp [List.length_drop]
  omega

/-- The first 16 32-bit big-endian words of a block. -/
def blockWords (block : List Nat) : List Nat :=
  (List.range 16).map fun i =>
    block.getD (4 * i) 0 * 16777216 + block.getD (4 * i + 1) 0 * 65536 +
    block.getD (4 * i + 2) 0 * 256 + block.getD (4 * i + 3) 0

/-- Extend the 16 message words to the 64-entry message schedule. -/
def shaSchedule (ws : List Nat) : List Nat :=
  (List.range 48).foldl
    (fun w _ =>
      let n := w.length
      w ++ [w32 (smallSigma1 (w.getD (n - 2) 0) + w.getD (n - 7) 0 +
                 smallSigma0 (w.getD (n - 15) 0) + w.getD (n - 16) 0)])
    ws

/-- One round of the SHA-256 compression function. -/
def shaRound (st : List Nat) (kw : Nat × Nat) : List Nat :=
  match st with
  | [a, b, c, d, e, f, g, h] =>
      let t1 := w32 (h + bigSigma1 e + shaCh e f g + kw.1 + kw.2)
      let t2 := w32 (bigSigma0 a + shaMaj a b c)
      [w32 (t1 + t2), a, b, c, w32 (d + t1), e, f, g]
  | other => other

/-- Process one 64-byte block. -/
def shaCompress (h : List Nat) (block : List Nat) : List Nat :=
  let w := shaSchedule (blockWords block)
  let st := (shaK.zip w).foldl shaRound h
  (h.zip st).map fun p => w32 (p.1 + p.2)

/-- Eight lowercase hex digits of a 32-bit word. -/
def hex8 (x : Nat) : String :=
  String.mk ((List.range 8).map fun i => hexDigit ((x >>> (4 * (7 - i))) % 16))

/-- `hashlib.sha256(msg).hexdigest()` over a byte list. -/
def sha256Hex (msg : List Nat) : String :=
  String.join (((shaBlocks (shaPad msg)).foldl shaCompress shaH0).map hex8)

/-! ### Dates (`datetime.date`)

A calendar date; `toOrdinal` is the standard days-from-civil conversion, so
differences agree with Python's `(a - b).days`.  Python's floor division on
possibly-negative ints is `Int.fdiv`. -/

structure Date where
  year : Int
  month : Nat
  day : Nat
deriving Repr, DecidableEq

/-- Days since 1970-01-01 of a proleptic Gregorian date (Howard Hinnant's
days-from-civil algorithm); differences equal Python `date` differences. -/
def Date.toOrdinal (d : Date) : Int :=
  let y : Int := if d.month ≤ 2 then d.year - 1 else d.year
  let era : Int := Int.fdiv y 400
  let yoe : Int := y - era * 400
  let mp : Int := if d.month > 2 then (d.month : Int) - 3 else (d.month : Int) + 9
  let doy : Int := Int.fdiv (153 * mp + 2) 5 + (d.day : Int) - 1
  let doe : Int := yoe * 365 + Int.fdiv yoe 4 - Int.fdiv yoe 100 + doy
  era * 146097 + doe - 719468

/-- Python `(a - b).days`. -/
def daysBetween (a b : Date) : Int := a.toOrdinal - b.toOrdinal

/-! ### Scenario and timeline data (`child_llm/models/scenario.py`, §6 interfaces)

Only the fields consumed by the embedded pipeline are modelled.  Personality
values are rationals (the code only compares them against literals).  The
timeline file is modelled by its `weekly_timeline` array of JSON objects. -/

structure Caregiver where
  name : String
deriving Repr, DecidableEq

structure ChildProfile where
  name : String
  birthdate : Date
  personality : List (String × ℚ)
  temperament_tags : List String
deriving Repr

structure EnvironmentCfg where
  home_type : String
  city : String
deriving Repr

structure Scenario where
  monologue_id : String
  seed : Int
  child_profile : ChildProfile
  caregivers : List Caregiver
  environment : EnvironmentCfg
deriving Repr

/-- Python `personality.get(key, default)` over the rational-valued map. -/
def pyGetRat (m : List (String × ℚ)) (k : String) (dflt : ℚ) : ℚ :=
  match m with
  | [] => dflt
  | (k2, v) :: t => if k2 == k then v else pyGetRat t k dflt

/-- The `weekly_timeline` array of the timeline file: a list of JSON objects. -/
abbrev TimelineData := List Json

/-! ### HourPlanner (`child_llm/pipeline/planner.py`) -/

/-- `HourPlanner.__init__`: the age-tier sleep table (`self.sleep_patterns`);
every tier lists all 24 hours. -/
def hoursAll : List Nat :=
  [0, 1, 2, 3, 4, 5, 6, 7, 8, 9, 10, 11, 12,
   13, 14, 15, 16, 17, 18, 19, 20, 21, 22, 23]

def sleepPatterns : List (String × List Nat) :=
  [("newborn", hoursAll), ("infant", hoursAll), ("toddler", hoursAll),
   ("preschool", hoursAll), ("school_age", hoursAll)]

/-- `HourPlanner._get_week_index`: `(target_date - birthdate).days // 7 + 1`. -/
def plannerWeekIndex (target birth : Date) : Int :=
  Int.fdiv (daysBetween target birth) 7 + 1

/-- Does a timeline entry satisfy `entry.get("week_index") == week_index`? -/
def entryMatchesWeek (e : Json) (w : Int) : Bool :=
  match e with
  | .obj kvs =>
      match lookupJson "week_index" kvs with
      | some v => jsonEqInt v w
      | none => false
  | _ => false

/-- The default developmental context of `HourPlanner._get_weekly_context`. -/
def defaultWeeklyContext : List (String × Json) :=
  [("developmental_stage", .str "sensorimotor"),
   ("cognitive_focus", .str "sensory_integration"),
   ("vocabulary_period", .str "1.1"),
   ("language_characteristics", .arr [.str "cooing", .str "babbling"]),
   ("forbidden_patterns", .arr [.str "complex sentences", .str "abstract concepts"]),
   ("typical_activities", .arr [.str "sleeping", .str "feeding", .str "sensory exploration"]),
   ("emotional_range", .arr [.str "calm", .str "discomfort", .str "curiosity"])]

/-- `HourPlanner._get_weekly_context`: first entry whose `week_index` equals
the requested index, else the documented default snapshot. -/
def getWeeklyContext (w : Int) (t : TimelineData) : List (String × Json) :=
  match t.find? (fun e => entryMatchesWeek e w) with
  | some (.obj kvs) => kvs
  | some _ => []
  | none => defaultWeeklyContext

/-- `HourPlanner._determine_sleep_state` (each age tier checks membership in
its literal hour list and otherwise falls through to `"awake"`). -/
def determineSleepState (hour : Nat) (age : Int) : String :=
  if age = 0 then (if hoursAll.contains hour then "asleep" else "awake")
  else if age = 1 then (if hoursAll.contains hour then "asleep" else "awake")
  else if age = 2 then (if hoursAll.contains hour then "asleep" else "awake")
  else if age = 3 then (if hoursAll.contains hour then "asleep" else "awake")
  else if age = 4 then (if hoursAll.contains hour then "asleep" else "awake")
  else "awake"

/-- `HourPlanner._get_developmental_context`. -/
def getDevelopmentalContext (wc : List (String × Json)) : Json :=
  .obj
    [("developmental_theme", pyGetD wc "developmental_theme" (.str "sensory_integration")),
     ("cognitive_focus", pyGetD wc "cognitive_focus" (.str "pattern_recognition")),
     ("vocabulary_period", pyGetD wc "vocabulary_period" (.str "1.1")),
     ("milestones", pyGetD wc "milestones" (.arr [])),
     ("vocabulary_focus", pyGetD wc "vocabulary_focus" (.arr [])),
     ("dominant_emotions", pyGetD wc "dominant_emotions" (.arr [.str "curiosity"])),
     ("routine_tags", pyGetD wc "routine_tags" (.arr [.str "daily routine"])),
     ("forbidden_patterns",
      pyGetD wc "forbidden_patterns" (.arr [.str "complex_sentences", .str "abstract_concepts"]))]

/-- The time-of-day bucket of `HourPlanner._get_environmental_context`. -/
def timeOfDay (hour : Nat) : String :=
  if 6 ≤ hour ∧ hour ≤ 8 then "morning"
  else if 12 ≤ hour ∧ hour ≤ 14 then "afternoon"
  else if 18 ≤ hour ∧ hour ≤ 20 then "evening"
  else if 22 ≤ hour ∨ hour ≤ 6 then "night"
  else "day"

/-- `HourPlanner._get_season`. -/
def getSeason (d : Date) : String :=
  if [12, 1, 2].contains d.month then "winter"
  else if [3, 4, 5].contains d.month then "spring"
  else if [6, 7, 8].contains d.month then "summer"
  else "autumn"

/-- `HourPlanner._get_environmental_context`. -/
def getEnvironmentalContext (hour : Nat) (d : Date) (s : Scenario) : Json :=
  .obj
    [("time_of_day", .str (timeOfDay hour)),
     ("season", .str (getSeason d)),
     ("weather", .str "typical"),
     ("location", .str s.environment.home_type),
     ("temperature", .str "comfortable")]

/-- Build the social-context dict from the present caregivers. -/
def mkSocialContext (present : List String) : Json :=
  .obj
    [("caregivers_present", .arr (present.map .str)),
     ("social_interaction_level", .str (if present.isEmpty then "low" else "high")),
     ("other_children", .arr [])]

/-- `HourPlanner._get_social_context`; `none` is the IndexError raised by
`scenario.caregivers[0]` when the caregiver list is empty. -/
def getSocialContext (hour : Nat) (s : Scenario) : Option Json :=
  if (7 ≤ hour ∧ hour ≤ 9) ∨ (17 ≤ hour ∧ hour ≤ 19) then
    some (mkSocialContext (s.caregivers.map (·.name)))
  else if 9 ≤ hour ∧ hour ≤ 17 then
    s.caregivers.head?.map fun c => mkSocialContext [c.name]
  else
    s.caregivers.head?.map fun c => mkSocialContext [c.name]

/-- `HourPlanner._get_emotional_context`; `none` is the TypeError raised by
`base_emotions + additional_emotions` when the timeline entry's
`dominant_emotions` is present but not a list. -/
def getEmotionalContext (hour : Nat) (wc : List (String × Json)) (s : Scenario) :
    Option Json :=
  let additional :=
    (if s.child_profile.temperament_tags.contains "sensitive_to_noise" ∧
        (hour = 8 ∨ hour = 18)
     then [Json.str "overwhelmed"] else []) ++
    (if pyGetRat s.child_profile.personality "extraversion" (1/2) > 7/10
     then [Json.str "excited"] else [])
  match pyGetD wc "dominant_emotions" (.arr [.str "curiosity"]) with
  | .arr base =>
      some (.obj
        [("dominant_emotions", .arr (base ++ additional)),
         ("arousal_level", .str "medium"),
         ("emotional_stability", .str "stable")])
  | _ => none

/-- `HourPlanner._get_language_constraints`. -/
def getLanguageConstraints (age : Int) : Json :=
  let mk : Int → List Json → Json := fun n pats =>
    .obj [("max_sentence_length", .int n), ("forbidden_patterns", .arr pats)]
  if age = 0 then mk 3 [.str "future_tense", .str "complex_sentences"]
  else if age = 1 then mk 4 [.str "future_tense", .str "complex_sentences"]
  else if age = 2 then mk 5 [.str "complex_sentences"]
  else if age = 3 then mk 6 [.str "abstract_concepts"]
  else if age = 4 then mk 7 []
  else if age = 5 then mk 8 []
  else mk 3 [.str "future_tense", .str "complex_sentences"]

/-- `HourPlanner._get_cognitive_abilities`. -/
def getCognitiveAbilities (age : Int) : List String :=
  if age = 0 then ["sensory_perception", "basic_attention", "simple_memory"]
  else if age = 1 then ["object_permanence", "basic_causality", "simple_imitation"]
  else if age = 2 then ["symbolic_play", "basic_language", "simple_reasoning"]
  else if age = 3 then ["self_awareness", "basic_empathy", "simple_planning"]
  else if age = 4 then ["world_modeling", "hypothesis_testing", "basic_abstraction"]
  else if age = 5 then ["abstract_thinking", "metacognition", "complex_reasoning"]
  else ["sensory_perception", "basic_attention", "simple_memory"]

/-- `HourPlanner._get_typical_activities` (the hour argument is unused in the
source as well). -/
def getTypicalActivities (_hour : Nat) (age : Int) : List String :=
  if age = 0 then ["feeding", "sleeping", "crying", "looking"]
  else if age = 1 then ["playing", "exploring", "babbling", "crawling"]
  else if age = 2 then ["walking", "talking", "playing", "exploring"]
  else if age = 3 then ["pretend_play", "talking", "learning", "socializing"]
  else if age = 4 then ["learning", "playing", "reading", "creating"]
  else ["learning", "playing", "thinking", "creating"]

/-- `HourPlanner._get_forbidden_patterns`. -/
def getForbiddenPatterns (age : Int) : List String :=
  if age = 0 then ["future_tense", "complex_sentences", "abstract_concepts"]
  else if age = 1 then ["future_tense", "complex_sentences", "abstract_concepts"]
  else if age = 2 then ["complex_sentences", "abstract_concepts"]
  else if age = 3 then ["abstract_concepts"]
  else if age = 4 then []
  else if age = 5 then []
  else ["future_tense", "complex_sentences", "abstract_concepts"]

/-- `HourPlanner._compute_content_hash`:
`hashlib.sha256(json.dumps(hour_plan, sort_keys=True).encode()).hexdigest()[:16]`. -/
def computeContentHash (j : Json) : String :=
  (sha256Hex (utf8Encode (dumps j))).take 16

/-- The hour-plan dict of `HourPlanner._plan_hour` at the moment the content
hash is computed (all keys except `content_hash`). -/
def planHourFields (hour : Nat) (age : Int) (wc : List (String × Json))
    (s : Scenario) (d : Date) (sc emo : Json) : List (String × Json) :=
  [("hour", .int hour),
   ("year", .int age),
   ("week", .int (plannerWeekIndex d s.child_profile.birthdate)),
   ("sleep_state", .str (determineSleepState hour age)),
   ("developmental_context", getDevelopmentalContext wc),
   ("environmental_context", getEnvironmentalContext hour d s),
   ("social_context", sc),
   ("emotional_context", emo),
   ("language_constraints", getLanguageConstraints age),
   ("cognitive_abilities", .arr ((getCognitiveAbilities age).map .str)),
   ("typical_activities", .arr ((getTypicalActivities hour age).map .str)),
   ("forbidden_patterns", .arr ((getForbiddenPatterns age).map .str))]

/-- `HourPlanner._plan_hour`: builds the hour dict, then adds the content
hash of its serialization.  `none` propagates the exceptions of the social
and emotional sub-computations. -/
def planHour (hour : Nat) (age : Int) (wc : List (String × Json))
    (s : Scenario) (d : Date) : Option Json :=
  match getSocialContext hour s with
  | none => none
  | some sc =>
      match getEmotionalContext hour wc s with
      | none => none
      | some emo =>
          let fields := planHourFields hour age wc s d sc emo
          some (.obj (fields ++
            [("content_hash", .str (computeContentHash (.obj fields)))]))

/-- `Option`-valued map over a list, stopping at the first failure (the order
in which Python raises). -/
def mapOpt (f : α → Option β) : List α → Option (List β)
  | [] => some []
  | a :: t =>
      match f a with
      | none => none
      | some b =>
          match mapOpt f t with
          | none => none
          | some l => some (b :: l)

/-- `HourPlanner.plan_day`: 24 hour plans from (scenario, date, timeline). -/
def planDay (s : Scenario) (d : Date) (t : TimelineData) : Option (List Json) :=
  let ageYears := Int.fdiv (daysBetween d s.child_profile.birthdate) 365
  let w := plannerWeekIndex d s.child_profile.birthdate
  let wc := getWeeklyContext w t
  mapOpt (fun h => planHour h ageYears wc s d) (List.range 24)

/-! ### Consciousness models (`child_llm/models/consciousness.py`) -/

/-- `ConsciousnessEntry`: the ten required component fields. -/
structure ConsciousnessEntry where
  sensory_perception : String
  interoception : String
  attention_focus : String
  intention_motive : String
  social_interaction : String
  vocalization : String
  motor_behavior : String
  emotional_expression : String
  environmental_learning : String
  reflective_awareness : String
deriving Repr

/-- `MinuteEntry`. -/
structure MinuteEntry where
  minute : Int
  consciousness_components : ConsciousnessEntry
  labels : List (String × String)
deriving Repr

/-- `HourChunk`. -/
structure HourChunk where
  hour : Int
  state_summary : List (String × Json)
  entries : List MinuteEntry
deriving Repr

/-- `DayFile`. -/
structure DayFile where
  monologue_id : String
  date : String
  provenance : List (String × String)
  hour_chunks : List HourChunk
deriving Repr

/-! ### Vocabulary bands (`ConsciousnessGenerator._load_vocabulary_band`)

The on-disk vocabulary files are an external interface (§6): they are passed
in as a filename-keyed map.  A vocabulary band is modelled by the four fields
the code consumes (each read with a `.get` default in the source). -/

structure VocabData where
  language_characteristics : List String
  forbidden_patterns : List String
  core_vocabulary : List String
  developmental_stage : String
deriving Repr

/-- The vocabulary files present on disk, keyed by filename. -/
abbrev VocabFiles := List (String × VocabData)

def lookupFile (k : String) : VocabFiles → Option VocabData
  | [] => none
  | (k2, v) :: t => if k2 == k then some v else lookupFile k t

/-- `ConsciousnessGenerator._get_fallback_vocabulary`: keyed on the integer
year parsed from the period string (parse failure falls to the basic entry). -/
def getFallbackVocabulary (period : String) : VocabData :=
  match (pySplitOn period ".").head?.bind pyToInt with
  | some 1 =>
      { language_characteristics := ["cooing", "crying", "babbling", "sound recognition"],
        forbidden_patterns := ["words", "sentences", "complex sounds", "abstract concepts"],
        core_vocabulary := [],
        developmental_stage := "pre-linguistic" }
  | some 2 =>
      { language_characteristics := ["50-200 words", "two-word combinations", "naming objects"],
        forbidden_patterns := ["complex sentences", "abstract reasoning", "future planning"],
        core_vocabulary := ["mama", "dada", "ball", "milk", "up", "down", "more", "no"],
        developmental_stage := "holophrastic" }
  | some _ =>
      { language_characteristics := ["basic communication"],
        forbidden_patterns := ["complex language"],
        core_vocabulary := [],
        developmental_stage := "basic" }
  | none =>
      { language_characteristics := ["basic communication"],
        forbidden_patterns := ["complex language"],
        core_vocabulary := [],
        developmental_stage := "basic" }

/-- `ConsciousnessGenerator._load_vocabulary_band`: split the period key into
year and period, look the file up, else (missing file or malformed key) fall
back to the static table.  The in-memory cache is behaviourally transparent
and is not modelled. -/
def loadVocabularyBand (files : VocabFiles) (period : String) : VocabData :=
  match pySplitOn period "." with
  | [y, p] =>
      let filename :=
        "my_monologue/vocabulary/vocabulary_year_" ++ y ++ "_period_" ++ p ++ ".json"
      match lookupFile filename files with
      | some v => v
      | none => getFallbackVocabulary period
  | _ => getFallbackVocabulary period

/-! ### `ConsciousnessGenerator._create_fallback_hour_chunk`

Its four static content tables (eight variants each) and the per-minute
construction keyed by `minute % 8`.  `none` models the IndexError raised
when a content list is shorter than the variant index. -/

structure FallbackContent where
  sensory : List String
  social : List String
  motor : List String
  emotional : List String
  vocal : List String

def preLinguisticVocalizations : List String :=
  ["gentle cooing", "content gurgling", "soft crying", "quiet babbling",
   "satisfied sounds", "sleepy murmurs", "hungry cries", "comforted coos"]

/-- The vocalization list: pre-linguistic sounds, or, when the band has core
vocabulary, at most five "trying to say w" items plus two extras (at most
seven entries in total). -/
def fallbackVocalizations (vocab : VocabData) : List String :=
  if vocab.developmental_stage == "pre-linguistic" || vocab.core_vocabulary.isEmpty then
    preLinguisticVocalizations
  else
    (((vocab.core_vocabulary.filter (fun w => w.length ≤ 4)).take 5).map
      (fun w => "trying to say " ++ w)) ++ ["babbling", "cooing"]

def feedingContent (vocal : List String) : FallbackContent :=
  { sensory :=
      ["mother\x27s warm skin against cheek", "gentle lullaby voice",
       "soft breast texture", "warm milk scent", "caregiver\x27s heartbeat",
       "soft blanket texture", "gentle rocking motion", "familiar voice patterns"],
    social :=
      ["eye contact with caregiver", "responding to familiar voice", "calming touch",
       "bonding moment", "caregiver\x27s loving gaze", "gentle talking",
       "soothing presence", "secure attachment"],
    motor :=
      ["rooting reflex", "sucking motion", "hand grasping", "body relaxation",
       "gentle arm movements", "head turning", "mouth opening", "comfortable positioning"],
    emotional :=
      ["content during feeding", "secure with caregiver", "satisfied and warm",
       "peaceful connection", "loved and protected", "calm and satisfied",
       "trusting and safe", "nurtured and cared for"],
    vocal := vocal }

def tummyTimeContent (vocal : List String) : FallbackContent :=
  { sensory :=
      ["firm surface under chest", "different perspective of room", "gravity on body",
       "new visual angles", "texture of play mat", "caregiver\x27s encouraging voice",
       "bright colors nearby", "gentle support"],
    social :=
      ["caregiver encouraging voice", "gentle support touch", "facial expressions",
       "motivational sounds", "cheering and praise", "helping hands",
       "loving encouragement", "patient guidance"],
    motor :=
      ["attempting to lift head", "pushing up with arms", "turning head side to side",
       "strengthening neck", "kicking legs", "reaching movements",
       "head control practice", "muscle building"],
    emotional :=
      ["frustrated by effort", "determined to succeed", "tired but trying",
       "proud of progress", "challenged but motivated", "working hard",
       "feeling accomplished", "building confidence"],
    vocal := vocal }

def playtimeContent (vocal : List String) : FallbackContent :=
  { sensory :=
      ["high-contrast black and white patterns", "gentle rattling sounds",
       "soft fabric textures", "bright colors", "musical mobile sounds",
       "different textures to touch", "visual stimulation", "auditory exploration"],
    social :=
      ["caregiver\x27s animated face", "singing and talking", "playful interactions",
       "responsive engagement", "mirror play", "peek-a-boo games",
       "social smiling", "interactive communication"],
    motor :=
      ["reaching toward objects", "tracking with eyes", "hand-eye coordination",
       "exploratory movements", "grasping attempts", "visual tracking",
       "head turning", "body coordination"],
    emotional :=
      ["excited by new stimuli", "curious about patterns", "engaged and alert",
       "delighted by interaction", "amused by games", "interested in exploration",
       "happy and playful", "enthusiastic learning"],
    vocal := vocal }

def sleepTimeContent (vocal : List String) : FallbackContent :=
  { sensory :=
      ["soft blanket against skin", "gentle breathing sounds", "warm room temperature",
       "peaceful darkness", "comforting swaddle", "quiet environment",
       "familiar scents", "gentle lullabies"],
    social :=
      ["caregiver\x27s presence nearby", "soothing touch", "familiar voice",
       "secure environment", "loving watchfulness", "protective presence",
       "gentle care", "safe haven"],
    motor :=
      ["gentle twitches", "hand-to-mouth movements", "self-soothing gestures",
       "relaxed body", "sleep movements", "comfortable positioning",
       "natural reflexes", "peaceful rest"],
    emotional :=
      ["calm and peaceful", "secure and warm", "content and satisfied",
       "ready for rest", "loved and protected", "safe and comfortable",
       "trusting and relaxed", "nurtured and calm"],
    vocal := vocal }

/-- One fallback minute entry; `none` is the IndexError raised when
`minute % 8` exceeds a content list (possible only for the vocal list). -/
def mkFallbackMinute (isAwake isFeeding isTummy isPlay : Bool)
    (vocal : List String) (minute : Nat) : Option MinuteEntry :=
  let variation := minute % 8
  let sel : FallbackContent × String :=
    if isFeeding && isAwake then (feedingContent vocal, "feeding")
    else if isTummy then (tummyTimeContent vocal, "tummy time")
    else if isPlay then (playtimeContent vocal, "sensory play")
    else (sleepTimeContent vocal, "rest")
  let content := sel.1
  let activity := sel.2
  match content.sensory.get? variation, content.social.get? variation,
        content.vocal.get? variation, content.motor.get? variation,
        content.emotional.get? variation with
  | some sp, some si, some vo, some mo, some em =>
      some
        { minute := minute,
          consciousness_components :=
            { sensory_perception := sp,
              interoception :=
                if activity ≠ "tummy time" then "comfortable and secure" else "working hard",
              attention_focus :=
                if isAwake then "focused on " ++ activity else "drifting peacefully",
              intention_motive :=
                if activity = "feeding" then "seeking comfort"
                else if activity = "sensory play" then "exploring" else "resting",
              social_interaction := si,
              vocalization := vo,
              motor_behavior := mo,
              emotional_expression := em,
              environmental_learning :=
                if isAwake then "learning through " ++ activity
                else "consolidating experiences",
              reflective_awareness :=
                if activity = "feeding" then "basic awareness of needs"
                else "present moment focus" },
          labels :=
            [("arousal_level",
              if activity = "tummy time" then "high"
              else if isAwake then "medium" else "low"),
             ("dominant_emotion",
              if activity = "feeding" then "content"
              else if activity = "tummy time" then "frustrated" else "calm"),
             ("cognitive_load",
              if activity = "tummy time" ∨ activity = "sensory play" then "medium"
              else "minimal"),
             ("social_context", if isAwake then "with_caregivers" else "alone")] }
  | _, _, _, _, _ => none

/-- `ConsciousnessGenerator._create_fallback_hour_chunk`: the fallback result
built from the hour plan and the vocabulary band.  `none` models an uncaught
exception (KeyError on a missing plan key, TypeError, or the IndexError on a
short vocalization list). -/
def createFallbackHourChunk (plan : Json) (files : VocabFiles) : Option HourChunk :=
  match pyIndexJson plan "hour" with
  | none => none
  | some hourJ =>
      match asInt hourJ with
      | none => none
      | some hour =>
          match pyIndexJson plan "developmental_context" with
          | none => none
          | some devJ =>
              match pyIndexJson devJ "vocabulary_period" with
              | none => none
              | some vpJ =>
                  match asStr vpJ with
                  | none => none
                  | some vp =>
                      let vocab := loadVocabularyBand files vp
                      let vocal := fallbackVocalizations vocab
                      match pyIndexJson plan "sleep_state" with
                      | none => none
                      | some sleepJ =>
                          let isFeeding :=
                            ([2, 6, 10, 14, 18, 22] : List Int).contains hour
                          let isAwake :=
                            decide (6 ≤ hour) && decide (hour ≤ 22) &&
                            jsonEqStr sleepJ "awake"
                          let isTummy := (hour == 9 || hour == 15) && isAwake
                          let isPlay := (hour == 8 || hour == 16) && isAwake
                          match mapOpt
                              (mkFallbackMinute isAwake isFeeding isTummy isPlay vocal)
                              (List.range 60) with
                          | none => none
                          | some entries =>
                              match pyIndexJson devJ "dominant_emotions",
                                    pyIndexJson devJ "routine_tags",
                                    pyIndexJson devJ "cognitive_focus" with
                              | some domJ, some rtJ, some cfJ =>
                                  some
                                    { hour := hour,
                                      state_summary :=
                                        [("sleep_state", sleepJ),
                                         ("dominant_emotions", domJ),
                                         ("vocabulary_period", vpJ),
                                         ("context_tags", rtJ),
                                         ("developmental_focus", cfJ)],
                                      entries := entries }
                              | _, _, _ => none

/-! ### MonologueOrchestrator.generate_day (`child_llm/pipeline/orchestrator.py`)

The per-hour generation (a network interaction behind the semaphore) is
abstracted as an outcome oracle `Nat → Except Unit HourChunk`: `.ok c` is a
task that resolved to chunk `c`, `.error ()` a task that raised.
`asyncio.gather(..., return_exceptions=True)` returns the results in task
order, which the source then post-processes index by index, substituting
`_create_fallback_hour_chunk(hour_plans[i])` for exceptions. -/

/-- The resolution of one gathered task result: a successful chunk is kept;
an exception is replaced by `_create_fallback_hour_chunk(hour_plans[i])`. -/
def resolveChunk (outcomes : Nat → Except Unit HourChunk) (files : VocabFiles)
    (i : Nat) (p : Json) : Option HourChunk :=
  match outcomes i with
  | .ok c => some c
  | .error _ => createFallbackHourChunk p files

/-- The exception-replacement loop over `enumerate(hour_chunks)`; `none` is
an exception escaping `generate_day` (the fallback constructor itself can
raise). -/
def buildChunksGo (outcomes : Nat → Except Unit HourChunk) (files : VocabFiles) :
    Nat → List Json → Option (List HourChunk)
  | _, [] => some []
  | i, p :: rest =>
      match resolveChunk outcomes files i p with
      | none => none
      | some c =>
          match buildChunksGo outcomes files (i + 1) rest with
          | none => none
          | some cs => some (c :: cs)

/-- Zero-padded decimal rendering for the ISO date. -/
def padNum (width : Nat) (n : Nat) : String :=
  let s := toString n
  String.mk (List.replicate (width - s.length) '0') ++ s

/-- `target_date.isoformat()`. -/
def dateIso (d : Date) : String :=
  padNum 4 d.year.toNat ++ "-" ++ padNum 2 d.month ++ "-" ++ padNum 2 d.day

/-- `MonologueOrchestrator.generate_day` up to (and excluding) persistence:
plan the day, resolve every hour, replace raised hours by fallback chunks,
and assemble the `DayFile`. -/
def generateDay (s : Scenario) (d : Date) (t : TimelineData)
    (outcomes : Nat → Except Unit HourChunk) (files : VocabFiles) :
    Option DayFile :=
  match planDay s d t with
  | none => none
  | some plans =>
      match buildChunksGo outcomes files 0 plans with
      | none => none
      | some chunks =>
          some
            { monologue_id := s.monologue_id,
              date := dateIso d,
              provenance :=
                [("model", "gpt-4o-mini"), ("prompt_version", "consciousness.v1"),
                 ("temperature", "0.6"), ("seed", toString s.seed)],
              hour_chunks := chunks }

/-! ### ChunkedTwoPassGenerator (`src/chunked_two_pass_generator.py`) -/

/-- `ChunkedTwoPassGenerator._get_week_index`: `(target - birth).days // 7`. -/
def chunkedWeekIndex (target birth : Date) : Int :=
  Int.fdiv (daysBetween target birth) 7

/-- A raw service response, abstracted by the two observations the recovery
code makes of it: the result of `json.loads` (`none` on a
`json.JSONDecodeError`), and the minute numbers captured, in document order,
by the `"minute": N` record regex that `re.findall` applies
(`_extract_partial_json` uses only these captured numbers). -/
structure Content where
  parsed : Option Json
  minuteMatches : List Nat
deriving Repr

/-- `_create_fallback_external_reality`: 60 template entries conditioned on
the time of day. -/
def createFallbackExternalReality (hour : Int) (_ageWeeks : Int) : Json :=
  let sel : String × String × String :=
    if 0 ≤ hour ∧ hour < 6 then
      ("Deep sleep", "Dark, quiet nursery with minimal stimulation",
       "Occasional gentle check-ins, minimal intervention")
    else if 6 ≤ hour ∧ hour < 12 then
      ("Feeding and gentle wake-up routine", "Soft morning light, comfortable temperature",
       "Gentle feeding, diaper changes, soft talking")
    else if 12 ≤ hour ∧ hour < 18 then
      ("Active play and interaction",
       "Bright, stimulating environment with toys and sounds",
       "Active engagement, play, tummy time, talking")
    else
      ("Wind-down routine and preparation for sleep", "Dimming lights, calming atmosphere",
       "Gentle rocking, soft singing, bedtime routine")
  .obj
    [("hour", .int hour),
     ("external_reality", .arr ((List.range 60).map fun i =>
       .obj
         [("minute", .int i),
          ("environment", .str sel.2.1),
          ("caregiver_actions", .str sel.2.2),
          ("objects_present", .str "Age-appropriate toys, soft blankets, feeding supplies"),
          ("sensory_stimuli", .str "Gentle sounds, appropriate lighting, comfortable textures"),
          ("routine_activity", .str sel.1),
          ("external_events", .str "Developmentally appropriate stimulation and care")]))]

/-- The per-band consciousness template of
`_create_fallback_internal_monologue`. -/
def fallbackInternalBand (hour : Int) :
    String × String × String × String × String × String × String × String ×
    String × String × String :=
  -- (arousal, emotion, social_context, perception, interoception, attention,
  --  intention, vocalization, motor, learning, awareness)
  if 0 ≤ hour ∧ hour < 6 then
    ("low", "calm", "alone", "minimal sensory input, deep sleep state",
     "basic bodily needs, hunger cues", "internal focus, sleep cycles",
     "rest and recovery", "occasional sleep sounds", "minimal movement, sleep positions",
     "consolidating experiences from day", "minimal conscious awareness")
  else if 6 ≤ hour ∧ hour < 12 then
    ("medium", "alert", "with_caregivers", "increasing sensory awareness, morning light",
     "hunger, comfort needs, bodily sensations", "caregiver faces, feeding activities",
     "satisfying basic needs, social connection", "cooing, babbling, feeding sounds",
     "active feeding movements, eye tracking", "associating caregivers with comfort",
     "growing awareness of surroundings")
  else if 12 ≤ hour ∧ hour < 18 then
    ("high", "curious", "with_caregivers",
     "rich sensory input, visual and auditory stimulation",
     "comfortable, alert bodily state", "toys, faces, moving objects",
     "exploration, play, social interaction", "excited sounds, attempts at communication",
     "active movement, reaching, grasping",
     "discovering cause and effect, object properties",
     "high awareness of environment and interactions")
  else
    ("medium", "content", "with_caregivers", "softening sensory input, calming environment",
     "satisfied, preparing for sleep", "caregiver\x27s soothing presence",
     "seeking comfort and security", "soft sounds, contentment", "gentle movements, cuddling",
     "associating routines with comfort", "calm, secure awareness")

/-- One entry of `_create_fallback_internal_monologue`. -/
def fallbackInternalEntry (hour : Int) (i : Nat) : Json :=
  let b := fallbackInternalBand hour
  let arousal := b.1
  let emotion := b.2.1
  let socialCtx := b.2.2.1
  let perception := b.2.2.2.1
  let intero := b.2.2.2.2.1
  let attention := b.2.2.2.2.2.1
  let intention := b.2.2.2.2.2.2.1
  let vocalization := b.2.2.2.2.2.2.2.1
  let motor := b.2.2.2.2.2.2.2.2.1
  let learning := b.2.2.2.2.2.2.2.2.2.1
  let awareness := b.2.2.2.2.2.2.2.2.2.2
  .obj
    [("minute", .int i),
     ("consciousness_components", .obj
       [("sensory_perception", .str perception),
        ("interoception", .str intero),
        ("attention_focus", .str attention),
        ("intention_motive", .str intention),
        ("social_interaction", .str "caregiver presence and interaction"),
        ("vocalization", .str vocalization),
        ("motor_behavior", .str motor),
        ("emotional_expression", .str (emotion ++ " and responsive")),
        ("environmental_learning", .str learning),
        ("reflective_awareness", .str awareness)]),
     ("labels", .obj
       [("arousal_level", .str arousal),
        ("dominant_emotion", .str emotion),
        ("cognitive_load", .str "low"),
        ("social_context", .str socialCtx)])]

/-- `_create_fallback_internal_monologue`: 60 template consciousness entries
conditioned on the time of day. -/
def createFallbackInternalMonologue (hour : Int) (_ageWeeks : Int) : Json :=
  .obj
    [("hour", .int hour),
     ("entries", .arr ((List.range 60).map (fallbackInternalEntry hour)))]

/-- `_create_partial_external_reality`: placeholder records for the minutes
from `start_minute` to 59 only. -/
def createPartialExternalReality (startMinute : Nat) : Json :=
  .obj
    [("hour", .int 0),
     ("external_reality", .arr ((pyRangeList startMinute 60).map fun i =>
       .obj
         [("minute", .int i),
          ("environment", .str "Partial data - environment details"),
          ("caregiver_actions", .str "Partial data - caregiver actions"),
          ("objects_present", .str "Partial data - objects present"),
          ("sensory_stimuli", .str "Partial data - sensory stimuli"),
          ("routine_activity", .str "Partial data - routine activity"),
          ("external_events", .str "Partial data - external events")]))]

/-- One placeholder entry of `_create_partial_internal_monologue`. -/
def partialInternalEntry (i : Nat) : Json :=
  .obj
    [("minute", .int i),
     ("consciousness_components", .obj
       [("sensory_perception", .str "Partial data - sensory perception"),
        ("interoception", .str "Partial data - interoception"),
        ("attention_focus", .str "Partial data - attention focus"),
        ("intention_motive", .str "Partial data - intention motive"),
        ("social_interaction", .str "Partial data - social interaction"),
        ("vocalization", .str "Partial data - vocalization"),
        ("motor_behavior", .str "Partial data - motor behavior"),
        ("emotional_expression", .str "Partial data - emotional expression"),
        ("environmental_learning", .str "Partial data - environmental learning"),
        ("reflective_awareness", .str "Partial data - reflective awareness")]),
     ("labels", .obj
       [("arousal_level", .str "medium"),
        ("dominant_emotion", .str "neutral"),
        ("cognitive_load", .str "low"),
        ("social_context", .str "alone")])]

/-- `_create_partial_internal_monologue`: placeholder records for the minutes
from `start_minute` to 59 only. -/
def createPartialInternalMonologue (startMinute : Nat) : Json :=
  .obj
    [("hour", .int 0),
     ("entries", .arr ((pyRangeList startMinute 60).map partialInternalEntry))]

/-- The fallback content selected by the `"external_reality" in context`
test used at every fallback site of the chunked generator. -/
def fallbackContentFor (ctx : String) (hour : Int) : Json :=
  if substrB "external_reality" ctx then createFallbackExternalReality hour 0
  else createFallbackInternalMonologue hour 0

/-- `_parse_json_safely`: a successful `json.loads` is returned unchanged
(with no schema validation); on a parse error every recovery attempt is
skipped and the full fallback content for the hour is returned. -/
def parseJsonSafely (c : Content) (ctx : String) (hour : Int) : Json :=
  match c.parsed with
  | some j => j
  | none => fallbackContentFor ctx hour

/-- `_extract_partial_json`: take the minute number of the last regex match
and return a structure holding placeholder records for the remaining minutes
only (the matched records themselves are discarded); `none` when there is no
match. -/
def extractPartialJson (c : Content) (ctx : String) : Option Json :=
  match c.minuteMatches.getLast? with
  | none => none
  | some last =>
      some
        (if substrB "external_reality" ctx then
          createPartialExternalReality (last + 1)
        else
          createPartialInternalMonologue (last + 1))

/-- The hour extraction `int(context.split("hour_")[1].split("_")[0])`, with
every exception mapped to `0` as in the source. -/
def extractHourFromContext (ctx : String) : Int :=
  match pySplitOn ctx "hour_" with
  | _ :: second :: _ =>
      match (pySplitOn second "_").head?.bind pyToInt with
      | some n => n
      | none => 0
  | _ => 0

/-- The outcome of one service request, classified the way the retry loop
classifies the exception message: a response body, a rate-limit error
(`"rate_limit"`/`"429"` in the message), a token-limit error (`"tokens"` and
`"limit"` in the message), or any other service error. -/
inductive ServiceOutcome where
  | success (c : Content)
  | rateLimit
  | tokenLimit
  | otherError
deriving Repr

/-- The observable result of `_call_openai_with_retry`: the returned JSON
value, the number of network attempts made, and the backoff sleeps (seconds)
taken between attempts, in order.  The constant minimum-spacing sleep of
`_rate_limit` is not part of the backoff and is not recorded. -/
structure CallResult where
  result : Json
  attempts : Nat
  sleeps : List Nat
deriving Repr

/-- The `for attempt in range(3)` loop of `_call_openai_with_retry`.  `fuel`
is the number of remaining iterations (`3 - a`); when the loop ends, or on a
`break`, the function returns fallback content.  On a rate-limit error it
sleeps `2 ** attempt * 2` seconds and retries; on a token-limit error it
breaks immediately; on any other error it sleeps 1 second unless this was the
final attempt. -/
def retryGo (trace : Nat → ServiceOutcome) (ctx : String) (hour : Int) :
    Nat → Nat → List Nat → CallResult
  | 0, a, sleeps => ⟨fallbackContentFor ctx hour, a, sleeps⟩
  | fuel + 1, a, sleeps =>
      match trace a with
      | .success c => ⟨parseJsonSafely c ctx hour, a + 1, sleeps⟩
      | .rateLimit => retryGo trace ctx hour fuel (a + 1) (sleeps ++ [2 ^ a * 2])
      | .tokenLimit => ⟨fallbackContentFor ctx hour, a + 1, sleeps⟩
      | .otherError =>
          if fuel = 0 then ⟨fallbackContentFor ctx hour, a + 1, sleeps⟩
          else retryGo trace ctx hour fuel (a + 1) (sleeps ++ [1])

/-- `_call_openai_with_retry` over an outcome trace (the outcome of the n-th
request).  The function catches every service error and always returns a
value; it never raises.  `maxTokens` is only forwarded to the service
request and does not influence the control flow. -/
def callOpenAIWithRetry (trace : Nat → ServiceOutcome) (_maxTokens : Nat)
    (ctx : String) : CallResult :=
  retryGo trace ctx (extractHourFromContext ctx) 3 0 []

/-- `_generate_external_reality_async` for a given hour.  The source wraps
`_call_openai_with_retry(messages, 6000, ...)` in `try`, with a simplified
4000-token prompt and then direct fallback in the `except` arms; since
`_call_openai_with_retry` converts every failure into fallback content and
never raises, the first call's result is always returned and the simplified
prompt request is never issued. -/
def generateExternalReality (trace : Nat → ServiceOutcome) (hour : Int) :
    CallResult :=
  callOpenAIWithRetry trace 6000 ("external_reality_hour_" ++ toString hour)

/-! ### `ConsciousnessGenerator._call_openai` (`child_llm/pipeline/generator.py`)

The day-pipeline client: three attempts; before every retry it sleeps
`2 ** attempt`, and after a failed non-final attempt it sleeps `2 ** attempt`
again; the final failure re-raises the exception to the caller. -/

/-- Outcome of one request of the day-pipeline client: a (long enough)
response body, or any raised exception (including the too-short check). -/
inductive AsyncOutcome where
  | success (body : String)
  | failure
deriving Repr

/-- The observable result of `_call_openai`: either the response body or a
re-raised exception, plus attempts made and backoff sleeps in order. -/
structure AsyncCallResult where
  result : Except Unit String
  attempts : Nat
  sleeps : List Nat
deriving Repr

def asyncRetryGo (trace : Nat → AsyncOutcome) :
    Nat → Nat → List Nat → AsyncCallResult
  | 0, a, sleeps => ⟨.error (), a, sleeps⟩
  | fuel + 1, a, sleeps =>
      let s1 := if a > 0 then sleeps ++ [2 ^ a] else sleeps
      match trace a with
      | .success body => ⟨.ok body, a + 1, s1⟩
      | .failure =>
          if fuel = 0 then ⟨.error (), a + 1, s1⟩
          else asyncRetryGo trace fuel (a + 1) (s1 ++ [2 ^ a])

/-- `ConsciousnessGenerator._call_openai` over an outcome trace. -/
def asyncCallOpenAI (trace : Nat → AsyncOutcome) : AsyncCallResult :=
  asyncRetryGo trace 3 0 []

/-! ### ContinuityMemory (`ChunkedTwoPassGenerator.load_memory`/`update_memory`) -/

/-- One record of the generation-history log. -/
structure HistoryEntry where
  hour_range : String
  milestones : List Json
  activities : List Json
deriving Repr

/-- The continuity-memory dict. -/
structure Memory where
  recent_milestones : List Json
  recent_activities : List Json
  current_routines : List Json
  recent_social : Json
  last_generated_date : Option String
  last_generated_hour : Option Int
  generation_history : List HistoryEntry
deriving Repr

/-- The fresh memory returned by `load_memory` when no memory file exists. -/
def initialMemory : Memory :=
  { recent_milestones := [], recent_activities := [], current_routines := [],
    recent_social := .str "basic caregiver interaction",
    last_generated_date := none, last_generated_hour := none,
    generation_history := [] }

/-- The `entries` list of one hour result (`hour_data.get('entries', [])`). -/
def entriesOf (hourData : Json) : List Json :=
  match hourData with
  | .obj kvs =>
      match lookupJson "entries" kvs with
      | some (.arr xs) => xs
      | _ => []
  | _ => []

/-- `entry.get('consciousness_components', {})`. -/
def componentsOf (entry : Json) : List (String × Json) :=
  match entry with
  | .obj kvs =>
      match lookupJson "consciousness_components" kvs with
      | some (.obj c) => c
      | _ => []
  | _ => []

/-- A chunk's internal-monologue results in iteration order
(`chunk_data.get('internal_monologue', {}).values()`). -/
abbrev ChunkData := List Json

/-- The milestone extraction: entries whose `motor_behavior` contains
`"first"` (lower-cased). -/
def chunkMilestones (chunk : ChunkData) : List Json :=
  chunk.flatMap fun hd =>
    (entriesOf hd).filterMap fun e =>
      let comps := componentsOf e
      let mb := asStrD "" (pyGetD comps "motor_behavior" (.str ""))
      if substrB "first" (pyLower mb) then some (pyGetD comps "motor_behavior" .null)
      else none

/-- The activity extraction: truthy `environmental_learning` values. -/
def chunkActivities (chunk : ChunkData) : List Json :=
  chunk.flatMap fun hd =>
    (entriesOf hd).filterMap fun e =>
      let v := pyGetD (componentsOf e) "environmental_learning" .null
      if jsonTruthy v then some v else none

/-- The routine extraction: truthy `social_interaction` values. -/
def chunkRoutines (chunk : ChunkData) : List Json :=
  chunk.flatMap fun hd =>
    (entriesOf hd).filterMap fun e =>
      let v := pyGetD (componentsOf e) "social_interaction" .null
      if jsonTruthy v then some v else none

/-- The social-interaction extraction: truthy `social_interaction` values
mentioning `"caregiver"`. -/
def chunkSocialInteractions (chunk : ChunkData) : List Json :=
  chunk.flatMap fun hd =>
    (entriesOf hd).filterMap fun e =>
      let v := pyGetD (componentsOf e) "social_interaction" .null
      if jsonTruthy v && substrB "caregiver" (pyLower (asStrD "" v)) then some v
      else none

/-- `ChunkedTwoPassGenerator.update_memory`: replace the bounded views with
the last 5/10/15 extracted items, update the social snapshot and last hour,
append one history record and trim the history to its last 48 records. -/
def updateMemory (chunk : ChunkData) (m : Memory) (startHour endHour : Int) :
    Memory :=
  let milestones := chunkMilestones chunk
  let activities := chunkActivities chunk
  let routines := chunkRoutines chunk
  let social := chunkSocialInteractions chunk
  let gh := m.generation_history ++
    [{ hour_range := toString startHour ++ "-" ++ toString endHour,
       milestones := milestones, activities := activities }]
  { m with
    recent_milestones := pyTakeLast 5 milestones,
    recent_activities := pyTakeLast 10 activities,
    current_routines := dedupJson (pyTakeLast 15 routines),
    recent_social := (social.getLast?).getD (.str "basic caregiver interaction"),
    last_generated_hour := some endHour,
    generation_history := if gh.length > 48 then pyTakeLast 48 gh else gh }

/-! ### Observation helpers used by the claim statements -/

/-- Remove every pair with the given key (used to state that a plan's hash
field is the hash of the rest of the plan). -/
def eraseKey (k : String) : List (String × Json) → List (String × Json)
  | [] => []
  | (k2, v) :: t => if k2 == k then eraseKey k t else (k2, v) :: eraseKey k t

/-- A plan object's `content_hash` equals the truncated SHA-256 of the
key-sorted serialization of the plan without its hash field. -/
def planHashOk (p : Json) : Bool :=
  match p with
  | .obj kvs =>
      match lookupJson "content_hash" kvs with
      | some (.str h) => h == computeContentHash (.obj (eraseKey "content_hash" kvs))
      | _ => false
  | _ => false

/-- Whenever `plan_day` returns, it returns 24 plans, all hash-consistent. -/
def planDayOk (s : Scenario) (d : Date) (t : TimelineData) : Bool :=
  match planDay s d t with
  | none => true
  | some plans => plans.length == 24 && plans.all planHashOk

/-- Does the timeline contain an entry for the given week index? -/
def timelineHasWeek (t : TimelineData) (w : Int) : Bool :=
  t.any (fun e => entryMatchesWeek e w)

/-- Is the weekly context's `dominant_emotions` value (default included) a
list, so that `_get_emotional_context` cannot raise? -/
def emotionsListOk (wc : List (String × Json)) : Bool :=
  match pyGetD wc "dominant_emotions" (.arr [.str "curiosity"]) with
  | .arr _ => true
  | _ => false

/-- The number of records in a result's `entries` array. -/
def entriesLenOf (j : Json) : Nat :=
  match j with
  | .obj kvs =>
      match lookupJson "entries" kvs with
      | some (.arr xs) => xs.length
      | _ => 0
  | _ => 0

/-- The `minute` index of one entry record. -/
def minuteOfEntry : Json → Option Int
  | .obj ekvs =>
      match lookupJson "minute" ekvs with
      | some (.int n) => some n
      | _ => none
  | _ => none

/-- The minute indices of a result's `entries` array, in order. -/
def entryMinutesOf (j : Json) : List Int :=
  match j with
  | .obj kvs =>
      match lookupJson "entries" kvs with
      | some (.arr xs) => xs.filterMap minuteOfEntry
      | _ => []
  | _ => []

/-- Does each wait double the previous one? -/
def isDoubling : List Nat → Bool
  | a :: b :: rest => b == 2 * a && isDoubling (b :: rest)
  | _ => true

/-- Would the orchestrator's fallback substitution for hour 7 succeed?  (The
fallback constructor itself can raise; see `createFallbackHourChunk`.) -/
def fallbackOkAt (s : Scenario) (d : Date) (t : TimelineData)
    (files : VocabFiles) : Bool :=
  match (planDay s d t).bind (fun l => l.get? 7) with
  | some p => (createFallbackHourChunk p files).isSome
  | none => true

/-- The bounded-memory invariant of the specification. -/
def memoryBounds (m : Memory) : Prop :=
  m.recent_milestones.length ≤ 5 ∧ m.recent_activities.length ≤ 10 ∧
  m.generation_history.length ≤ 48

/-- Fold a sequence of chunk-completion updates over a memory. -/
def applyUpdates (m : Memory) (us : List (ChunkData × Int × Int)) : Memory :=
  us.foldl (fun m u => updateMemory u.1 m u.2.1 u.2.2) m

/-! ### Concrete fixtures for witnesses and counterexamples -/

/-- A concrete scenario: one caregiver, birthdate 2020-01-01. -/
def s0 : Scenario :=
  { monologue_id := "mono", seed := 12345,
    child_profile :=
      { name := "Aria", birthdate := ⟨2020, 1, 1⟩,
        personality := [("extraversion", 1/2)], temperament_tags := [] },
    caregivers := [⟨"Maya"⟩], environment := ⟨"apartment", "Springfield"⟩ }

/-- 2020-03-11: 70 days (10 weeks) after the birthdate, in March. -/
def d0 : Date := ⟨2020, 3, 11⟩

/-- 2020-03-10: 69 days after the birthdate (planner week index 10). -/
def d1 : Date := ⟨2020, 3, 10⟩

/-- A timeline carrying week 11 with a vocabulary period. -/
def t6 : TimelineData :=
  [.obj [("week_index", .int 11), ("vocabulary_period", .str "2.1")]]

/-- A timeline whose only entry is week 3 (week 11 is missing). -/
def tMiss : TimelineData := [.obj [("week_index", .int 3)]]

/-- A timeline carrying week 10 with vocabulary period `"2.1"` (the period
whose fallback vocabulary band has a nonempty core vocabulary). -/
def tC : TimelineData :=
  [.obj [("week_index", .int 10), ("vocabulary_period", .str "2.1")]]

/-- A service response truncated mid-record at minute 42: `json.loads` fails
and the record regex captures minutes 0 through 42. -/
def truncated42 : Content := { parsed := none, minuteMatches := pyRangeList 0 43 }

/-- An hour plan whose developmental context resolves vocabulary period
`"2.1"`. -/
def c1PlanLit : Json :=
  .obj
    [("hour", .int 7), ("sleep_state", .str "asleep"),
     ("developmental_context",
      .obj
        [("vocabulary_period", .str "2.1"),
         ("dominant_emotions", .arr [.str "curiosity"]),
         ("routine_tags", .arr [.str "daily routine"]),
         ("cognitive_focus", .str "basic")])]

/-- A service response that parses but carries a single entry. -/
def c1TinyResult : Json :=
  .obj [("hour", .int 5), ("entries", .arr [.obj [("minute", .int 3)]])]

/-- A well-formed generated chunk used as a successful outcome. -/
def chunk0 : HourChunk := { hour := 0, state_summary := [], entries := [] }

/-- Outcomes in which exactly hour 7 raises. -/
def outC : Nat → Except Unit HourChunk :=
  fun i => if i = 7 then .error () else .ok chunk0

/-! ## Helper lemmas -/

theorem pyTakeLast_length_le (n : Nat) (l : List α) : (pyTakeLast n l).length ≤ n := by
  simp only [pyTakeLast, List.length_drop]
  omega

theorem mapOpt_length (f : α → Option β) :
    ∀ (l : List α) (r : List β), mapOpt f l = some r → r.length = l.length := by
  intro l
  induction l with
  | nil => intro r h; simp only [mapOpt] at h; cases h; rfl
  | cons a t ih =>
      intro r h
      simp only [mapOpt] at h
      cases hfa : f a with
      | none => rw [hfa] at h; cases h
      | some b =>
          rw [hfa] at h
          cases ht : mapOpt f t with
          | none => rw [ht] at h; cases h
          | some l2 =>
              rw [ht] at h
              cases h
              simp [ih l2 ht]

theorem mapOpt_get? (f : α → Option β) :
    ∀ (l : List α) (r : List β), mapOpt f l = some r →
      ∀ i, r.get? i = (l.get? i).bind f := by
  intro l
  induction l with
  | nil =>
      intro r h i
      simp only [mapOpt] at h
      cases h
      simp
  | cons a t ih =>
      intro r h i
      simp only [mapOpt] at h
      cases hfa : f a with
      | none => rw [hfa] at h; cases h
      | some b =>
          rw [hfa] at h
          cases ht : mapOpt f t with
          | none => rw [ht] at h; cases h
          | some l2 =>
              rw [ht] at h
              cases h
              cases i with
              | zero => simp [hfa]
              | succ j => simpa using ih l2 ht j

theorem mapOpt_isSome (f : α → Option β) :
    ∀ l : List α, (∀ a ∈ l, (f a).isSome) → (mapOpt f l).isSome := by
  intro l
  induction l with
  | nil => intro _; simp [mapOpt]
  | cons a t ih =>
      intro h
      have ha := h a (List.mem_cons_self a t)
      cases hfa : f a with
      | none => rw [hfa] at ha; cases ha
      | some b =>
          have ht := ih (fun x hx => h x (List.mem_cons_of_mem a hx))
          cases hmt : mapOpt f t with
          | none => rw [hmt] at ht; cases ht
          | some l2 => simp [mapOpt, hfa, hmt]

theorem mapOpt_mem (f : α → Option β) :
    ∀ (l : List α) (r : List β), mapOpt f l = some r →
      ∀ b ∈ r, ∃ a ∈ l, f a = some b := by
  intro l
  induction l with
  | nil =>
      intro r h b hb
      simp only [mapOpt] at h
      cases h
      cases hb
  | cons a t ih =>
      intro r h b hb
      simp only [mapOpt] at h
      cases hfa : f a with
      | none => rw [hfa] at h; cases h
      | some b0 =>
          rw [hfa] at h
          cases ht : mapOpt f t with
          | none => rw [ht] at h; cases h
          | some l2 =>
              rw [ht] at h
              cases h
              rcases List.mem_cons.mp hb with hb0 | hbt
              · exact ⟨a, List.mem_cons_self a t, hb0 ▸ hfa⟩
              · rcases ih l2 ht b hbt with ⟨x, hx, hfx⟩
                exact ⟨x, List.mem_cons_of_mem a hx, hfx⟩

/-! ## C9 -/

theorem updateMemory_bounds (c : ChunkData) (m : Memory) (a b : Int) :
    memoryBounds (updateMemory c m a b) := by
  refine ⟨pyTakeLast_length_le 5 _, pyTakeLast_length_le 10 _, ?_⟩
  simp only [updateMemory]
  split
  · exact pyTakeLast_length_le 48 _
  · omega

theorem applyUpdates_bounds (us : List (ChunkData × Int × Int)) :
    ∀ m : Memory, memoryBounds m → memoryBounds (applyUpdates m us) := by
  induction us with
  | nil => intro m h; exact h
  | cons u t ih =>
      intro m _
      exact ih _ (updateMemory_bounds u.1 m u.2.1 u.2.2)

/-- Claim C9: after any finite sequence of chunk-completion updates applied
via `update_memory` — starting from the documented fresh memory, or from an
arbitrary memory with at least one update applied — `recent_milestones` has
at most 5 entries, `recent_activities` at most 10, and `generation_history`
at most its 48-entry cap. -/
theorem c9_memory_bounds (m0 : Memory) (u : ChunkData × Int × Int)
    (us vs : List (ChunkData × Int × Int)) :
    memoryBounds (applyUpdates initialMemory vs) ∧
    memoryBounds (applyUpdates (updateMemory u.1 m0 u.2.1 u.2.2) us) := by
  constructor
  · exact applyUpdates_bounds vs initialMemory ⟨by decide, by decide, by decide⟩
  · exact applyUpdates_bounds us _ (updateMemory_bounds u.1 m0 u.2.1 u.2.2)

/-! ## C10 -/

/-- Claim C10 counterexample: for 2020-03-11 with birthdate 2020-01-01 (70
days after birth, so on/after the birthdate), the planner's `_get_week_index`
yields 11 while the chunked generator's `_get_week_index` yields 10 — the
two components look up different weekly timeline entries for the same date. -/
theorem c10_counterexample :
    0 ≤ daysBetween d0 ⟨2020, 1, 1⟩ ∧
    plannerWeekIndex d0 ⟨2020, 1, 1⟩ = 11 ∧
    chunkedWeekIndex d0 ⟨2020, 1, 1⟩ = 10 ∧
    plannerWeekIndex d0 ⟨2020, 1, 1⟩ ≠ chunkedWeekIndex d0 ⟨2020, 1, 1⟩ := by
  refine ⟨by decide, by decide, by decide, by decide⟩

/-- Claim C10 (amended): for every pair of dates the planner's week index is
exactly one more than the chunked generator's (the planner is 1-based, the
chunked generator 0-based), so the two components never look up the same
weekly timeline entry for the same date. -/
theorem c10_week_index_off_by_one (target birth : Date) :
    plannerWeekIndex target birth = chunkedWeekIndex target birth + 1 := rfl

/-! ## C4 -/

theorem lookupJson_planFields_hash (hour : Nat) (age : Int)
    (wc : List (String × Json)) (s : Scenario) (d : Date) (sc emo : Json)
    (h : String) :
    lookupJson "content_hash"
      (planHourFields hour age wc s d sc emo ++ [("content_hash", .str h)]) =
      some (.str h) := rfl

theorem eraseKey_planFields_hash (hour : Nat) (age : Int)
    (wc : List (String × Json)) (s : Scenario) (d : Date) (sc emo : Json)
    (h : String) :
    eraseKey "content_hash"
      (planHourFields hour age wc s d sc emo ++ [("content_hash", .str h)]) =
      planHourFields hour age wc s d sc emo := rfl

theorem planHour_hashOk (hour : Nat) (age : Int) (wc : List (String × Json))
    (s : Scenario) (d : Date) (p : Json)
    (hp : planHour hour age wc s d = some p) : planHashOk p = true := by
  unfold planHour at hp
  cases hsc : getSocialContext hour s with
  | none => rw [hsc] at hp; cases hp
  | some sc =>
      rw [hsc] at hp
      cases hemo : getEmotionalContext hour wc s with
      | none => rw [hemo] at hp; cases hp
      | some emo =>
          rw [hemo] at hp
          cases hp
          simp only [planHashOk, lookupJson_planFields_hash, eraseKey_planFields_hash,
            beq_self_eq_true]

/-- Claim C4: for every fixed (scenario, target date, timeline data),
`plan_day` is a pure function — two invocations agree — and whenever it
returns it returns exactly 24 hour plans, each of whose `content_hash` fields
equals the SHA-256 digest, truncated to 16 hex characters, of the key-sorted
JSON serialization of the plan without its hash field (`planHashOk`). -/
theorem c4_planner_determinism_and_hash (s : Scenario) (d : Date)
    (t : TimelineData) :
    planDay s d t = planDay s d t ∧ planDayOk s d t = true := by
  refine ⟨rfl, ?_⟩
  unfold planDayOk
  cases hpd : planDay s d t with
  | none => rfl
  | some plans =>
      have hlen : plans.length = 24 := by
        have := mapOpt_length _ _ _ hpd
        simpa using this
      have hall : plans.all planHashOk = true := by
        rw [List.all_eq_true]
        intro p hp
        rcases mapOpt_mem _ _ _ hpd p hp with ⟨h, _, hfh⟩
        exact planHour_hashOk _ _ _ _ _ _ hfh
      simp [hlen, hall]

/-! ## C5 -/

theorem getSocialContext_isSome (hour : Nat) (s : Scenario)
    (hcg : s.caregivers ≠ []) : (getSocialContext hour s).isSome := by
  unfold getSocialContext
  cases hc : s.caregivers with
  | nil => exact absurd hc hcg
  | cons c cs =>
      split
      · simp
      · split <;> simp [hc]

theorem getEmotionalContext_isSome (hour : Nat) (wc : List (String × Json))
    (s : Scenario) (hemo : emotionsListOk wc = true) :
    (getEmotionalContext hour wc s).isSome := by
  unfold emotionsListOk at hemo
  unfold getEmotionalContext
  cases hbase : pyGetD wc "dominant_emotions" (.arr [.str "curiosity"]) <;>
    rw [hbase] at hemo <;> simp_all

theorem planHour_isSome (hour : Nat) (age : Int) (wc : List (String × Json))
    (s : Scenario) (d : Date) (hcg : s.caregivers ≠ [])
    (hemo : emotionsListOk wc = true) : (planHour hour age wc s d).isSome := by
  unfold planHour
  cases hsc : getSocialContext hour s with
  | none =>
      have := getSocialContext_isSome hour s hcg
      rw [hsc] at this; cases this
  | some sc =>
      cases he : getEmotionalContext hour wc s with
      | none =>
          have := getEmotionalContext_isSome hour wc s hemo
          rw [he] at this; cases this
      | some emo => simp

theorem planDay_isSome (s : Scenario) (d : Date) (t : TimelineData)
    (hcg : s.caregivers ≠ [])
    (hemo : emotionsListOk
      (getWeeklyContext (plannerWeekIndex d s.child_profile.birthdate) t) = true) :
    (planDay s d t).isSome := by
  unfold planDay
  exact mapOpt_isSome _ _ (fun h _ => planHour_isSome h _ _ s d hcg hemo)

theorem getWeeklyContext_of_missing (w : Int) (t : TimelineData)
    (hmiss : timelineHasWeek t w = false) :
    getWeeklyContext w t = defaultWeeklyContext := by
  unfold getWeeklyContext
  have hfind : t.find? (fun e => entryMatchesWeek e w) = none := by
    rw [List.find?_eq_none]
    intro x hx
    have := (List.any_eq_false).mp hmiss x hx
    simpa using this
  rw [hfind]

/-- Claim C5: when the timeline has no entry for the week index the planner
computes for the target date, `_get_weekly_context` returns the documented
default developmental snapshot (`developmental_stage = "sensorimotor"`,
`vocabulary_period = "1.1"`, ...), and `plan_day` still completes (the only
exception `plan_day` can raise — an empty caregiver list — is independent of
the timeline). -/
theorem c5_missing_week_defaults (s : Scenario) (d : Date) (t : TimelineData)
    (hcg : s.caregivers ≠ [])
    (hmiss : timelineHasWeek t (plannerWeekIndex d s.child_profile.birthdate) = false) :
    getWeeklyContext (plannerWeekIndex d s.child_profile.birthdate) t =
      defaultWeeklyContext ∧
    lookupJson "developmental_stage"
      (getWeeklyContext (plannerWeekIndex d s.child_profile.birthdate) t) =
      some (.str "sensorimotor") ∧
    lookupJson "vocabulary_period"
      (getWeeklyContext (plannerWeekIndex d s.child_profile.birthdate) t) =
      some (.str "1.1") ∧
    (planDay s d t).isSome = true := by
  have hdef := getWeeklyContext_of_missing _ t hmiss
  refine ⟨hdef, by rw [hdef]; rfl, by rw [hdef]; rfl, ?_⟩
  have hemo : emotionsListOk
      (getWeeklyContext (plannerWeekIndex d s.child_profile.birthdate) t) = true := by
    rw [hdef]; rfl
  simpa using planDay_isSome s d t hcg hemo

/-- Witness for C5 at a concrete input: the scenario `s0` (one caregiver),
date `d0` (planner week index 11) and the timeline `tMiss` whose only entry
is week 3. -/
theorem c5_witness :
    s0.caregivers ≠ [] ∧
    timelineHasWeek tMiss (plannerWeekIndex d0 s0.child_profile.birthdate) = false ∧
    (getWeeklyContext (plannerWeekIndex d0 s0.child_profile.birthdate) tMiss =
       defaultWeeklyContext ∧
     lookupJson "developmental_stage"
       (getWeeklyContext (plannerWeekIndex d0 s0.child_profile.birthdate) tMiss) =
       some (.str "sensorimotor") ∧
     lookupJson "vocabulary_period"
       (getWeeklyContext (plannerWeekIndex d0 s0.child_profile.birthdate) tMiss) =
       some (.str "1.1") ∧
     (planDay s0 d0 tMiss).isSome = true) :=
  ⟨by decide, by decide,
   c5_missing_week_defaults s0 d0 tMiss (by decide) (by decide)⟩

/-! ## C6 -/

theorem getSeason_march (d : Date) (hmonth : d.month = 3) :
    getSeason d = "spring" := by
  unfold getSeason
  rw [hmonth]
  decide

/-- Claim C6: planning hour 14 for a 10-week-old (70 days old, so
`age_years = 0`) on a date in March yields a plan whose `sleep_state` is
`"asleep"`, agreeing with the age-tier sleep table for age 0 (hour 14 is in
the `"newborn"` sleep-hour list); whose environmental `season` is
`"spring"`; and whose `vocabulary_period` is the value carried by the
timeline's week-11 entry rather than the hardcoded default. -/
theorem c6_hour14_march_scenario (s : Scenario) (d : Date) (t : TimelineData)
    (vp : Json)
    (hdays : daysBetween d s.child_profile.birthdate = 70)
    (hmonth : d.month = 3)
    (_hfound : timelineHasWeek t 11 = true)
    (hvp : lookupJson "vocabulary_period" (getWeeklyContext 11 t) = some vp)
    (hsome : (planDay s d t).isSome = true) :
    ∃ p, (planDay s d t).bind (fun l => l.get? 14) = some p ∧
      pyIndexJson p "sleep_state" = some (.str "asleep") ∧
      determineSleepState 14 0 = "asleep" ∧
      (List.lookup "newborn" sleepPatterns).map (fun l => l.contains 14) = some true ∧
      (pyIndexJson p "environmental_context").bind (fun e => pyIndexJson e "season") =
        some (.str "spring") ∧
      (pyIndexJson p "developmental_context").bind
        (fun e => pyIndexJson e "vocabulary_period") = some vp := by
  have hage : Int.fdiv (daysBetween d s.child_profile.birthdate) 365 = 0 := by
    rw [hdays]; decide
  have hwk : plannerWeekIndex d s.child_profile.birthdate = 11 := by
    unfold plannerWeekIndex; rw [hdays]; decide
  have hpd : planDay s d t =
      mapOpt (fun h => planHour h 0 (getWeeklyContext 11 t) s d) (List.range 24) := by
    show mapOpt (fun h => planHour h
        (Int.fdiv (daysBetween d s.child_profile.birthdate) 365)
        (getWeeklyContext (plannerWeekIndex d s.child_profile.birthdate) t) s d)
        (List.range 24) = _
    simp only [hage, hwk]
  rw [hpd] at hsome ⊢
  obtain ⟨plans, hplans⟩ := Option.isSome_iff_exists.mp hsome
  rw [hplans]
  have hlen : plans.length = 24 := by simpa using mapOpt_length _ _ _ hplans
  have h14 : plans.get? 14 = planHour 14 0 (getWeeklyContext 11 t) s d := by
    have hq := mapOpt_get? _ _ _ hplans 14
    rw [hq]
    have : (List.range 24).get? 14 = some 14 := by decide
    rw [this]
    rfl
  cases hg : plans.get? 14 with
  | none =>
      rw [List.get?_eq_none] at hg
      omega
  | some p =>
      rw [hg] at h14
      have hfp : planHour 14 0 (getWeeklyContext 11 t) s d = some p := h14.symm
      unfold planHour at hfp
      cases hsc : getSocialContext 14 s with
      | none => rw [hsc] at hfp; cases hfp
      | some sc =>
          rw [hsc] at hfp
          cases hemo : getEmotionalContext 14 (getWeeklyContext 11 t) s with
          | none => rw [hemo] at hfp; cases hfp
          | some emo =>
              rw [hemo] at hfp
              injection hfp with hfp
              subst hfp
              refine ⟨_, hg, rfl, rfl, rfl, ?_, ?_⟩
              · show some (Json.str (getSeason d)) = some (Json.str "spring")
                rw [getSeason_march d hmonth]
              · show some (pyGetD (getWeeklyContext 11 t) "vocabulary_period"
                    (Json.str "1.1")) = some vp
                unfold pyGetD
                rw [hvp]
                rfl

/-- Witness for C6 at a concrete input: scenario `s0` (birthdate
2020-01-01), date `d0` = 2020-03-11 (70 days old, March), and the timeline
`t6` whose week-11 entry carries vocabulary period `"2.1"`. -/
theorem c6_witness :
    daysBetween d0 s0.child_profile.birthdate = 70 ∧
    d0.month = 3 ∧
    timelineHasWeek t6 11 = true ∧
    lookupJson "vocabulary_period" (getWeeklyContext 11 t6) = some (.str "2.1") ∧
    (planDay s0 d0 t6).isSome = true ∧
    (∃ p, (planDay s0 d0 t6).bind (fun l => l.get? 14) = some p ∧
      pyIndexJson p "sleep_state" = some (.str "asleep") ∧
      determineSleepState 14 0 = "asleep" ∧
      (List.lookup "newborn" sleepPatterns).map (fun l => l.contains 14) = some true ∧
      (pyIndexJson p "environmental_context").bind (fun e => pyIndexJson e "season") =
        some (.str "spring") ∧
      (pyIndexJson p "developmental_context").bind
        (fun e => pyIndexJson e "vocabulary_period") = some (.str "2.1")) :=
  ⟨by decide, rfl, by decide, rfl, by rfl,
   c6_hour14_march_scenario s0 d0 t6 (.str "2.1") (by decide) rfl (by decide) rfl (by rfl)⟩

/-! ## C3 -/

/-- Claim C3 counterexample: when the first request fails with a
token/length-limit error, `_call_openai_with_retry` breaks out of the retry
loop and returns the deterministic fallback content after exactly one network
attempt — `_generate_external_reality_async` therefore returns fallback
content directly; a simplified-prompt escalation would require a second
request, but only one attempt is ever made. -/
theorem c3_counterexample :
    generateExternalReality (fun _ => .tokenLimit) 3 =
      { result := createFallbackExternalReality 3 0, attempts := 1, sleeps := [] } ∧
    (generateExternalReality (fun _ => .tokenLimit) 3).attempts = 1 := ⟨rfl, rfl⟩

/-- Claim C3 (amended): on a token-limit error the client makes no further
network attempt, but instead of escalating to the simplified-prompt path it
returns fallback content directly; the simplified-prompt second request in
`_generate_external_reality_async` is unreachable, because
`_call_openai_with_retry` converts every service failure into fallback
content and never raises — the first call's result is always returned. -/
theorem c3_token_limit_no_escalation (trace : Nat → ServiceOutcome)
    (h0 : trace 0 = .tokenLimit) :
    generateExternalReality trace 7 =
      { result := createFallbackExternalReality 7 0, attempts := 1, sleeps := [] } ∧
    (∀ tr : Nat → ServiceOutcome, generateExternalReality tr 7 =
      callOpenAIWithRetry tr 6000 "external_reality_hour_7") := by
  constructor
  · show retryGo trace "external_reality_hour_7"
        (extractHourFromContext "external_reality_hour_7") 3 0 [] = _
    simp only [retryGo, h0]
    rfl
  · intro tr
    rfl

/-- Witness for C3 at the all-token-limit trace. -/
theorem c3_witness :
    (fun _ : Nat => ServiceOutcome.tokenLimit) 0 = ServiceOutcome.tokenLimit ∧
    generateExternalReality (fun _ => .tokenLimit) 7 =
      { result := createFallbackExternalReality 7 0, attempts := 1, sleeps := [] } :=
  ⟨rfl, (c3_token_limit_no_escalation (fun _ => .tokenLimit) rfl).1⟩

/-! ## C7 -/

theorem retryGo_attempts_le (trace : Nat → ServiceOutcome) (ctx : String)
    (hour : Int) :
    ∀ (fuel a : Nat) (sleeps : List Nat),
      (retryGo trace ctx hour fuel a sleeps).attempts ≤ a + fuel := by
  intro fuel
  induction fuel with
  | zero => intro a sleeps; simp [retryGo]
  | succ f ih =>
      intro a sleeps
      simp only [retryGo]
      cases htr : trace a with
      | success c =>
          show a + 1 ≤ a + (f + 1)
          omega
      | rateLimit =>
          show (retryGo trace ctx hour f (a + 1) (sleeps ++ [2 ^ a * 2])).attempts ≤
            a + (f + 1)
          exact le_trans (ih (a + 1) (sleeps ++ [2 ^ a * 2])) (by omega)
      | tokenLimit =>
          show a + 1 ≤ a + (f + 1)
          omega
      | otherError =>
          show (if f = 0 then
              ({ result := fallbackContentFor ctx hour, attempts := a + 1,
                 sleeps := sleeps } : CallResult)
            else retryGo trace ctx hour f (a + 1) (sleeps ++ [1])).attempts ≤
            a + (f + 1)
          by_cases hf : f = 0
          · rw [if_pos hf]
            show a + 1 ≤ a + (f + 1)
            omega
          · rw [if_neg hf]
            exact le_trans (ih (a + 1) (sleeps ++ [1])) (by omega)

theorem asyncRetryGo_attempts_le (trace : Nat → AsyncOutcome) :
    ∀ (fuel a : Nat) (sleeps : List Nat),
      (asyncRetryGo trace fuel a sleeps).attempts ≤ a + fuel := by
  intro fuel
  induction fuel with
  | zero => intro a sleeps; simp [asyncRetryGo]
  | succ f ih =>
      intro a sleeps
      simp only [asyncRetryGo]
      cases htr : trace a with
      | success body =>
          show a + 1 ≤ a + (f + 1)
          omega
      | failure =>
          show (if f = 0 then
              ({ result := .error (), attempts := a + 1,
                 sleeps := if a > 0 then sleeps ++ [2 ^ a] else sleeps } :
                 AsyncCallResult)
            else asyncRetryGo trace f (a + 1)
              ((if a > 0 then sleeps ++ [2 ^ a] else sleeps) ++ [2 ^ a])).attempts ≤
            a + (f + 1)
          by_cases hf : f = 0
          · rw [if_pos hf]
            show a + 1 ≤ a + (f + 1)
            omega
          · rw [if_neg hf]
            exact le_trans (ih (a + 1) _) (by omega)

/-- Claim C7 counterexample: for non-rate-limit transient service errors the
chunked client still makes exactly 3 attempts, but the waits between attempts
are a constant 1 second each — not an exponential backoff that doubles per
attempt. -/
theorem c7_counterexample :
    (callOpenAIWithRetry (fun _ => .otherError) 6000 "internal_monologue_hour_4").sleeps =
      [1, 1] ∧
    (callOpenAIWithRetry (fun _ => .otherError) 6000 "internal_monologue_hour_4").attempts =
      3 ∧
    isDoubling
      (callOpenAIWithRetry (fun _ => .otherError) 6000 "internal_monologue_hour_4").sleeps =
      false :=
  ⟨rfl, rfl, rfl⟩

/-- Claim C7 (amended): both generation clients make at most 3 request
attempts and never a fourth.  In the chunked client, rate-limit failures wait
2, 4, 8 seconds (doubling per attempt) before the third failure yields the
fallback result; non-rate-limit errors wait a constant 1 second between
attempts.  The day-pipeline client sleeps `2 ** attempt` seconds after a
failed attempt and again before the retry (1, 2, 2, 4 on an all-failure
trace) and re-raises after the third failure. -/
theorem c7_retry_budget_and_backoff :
    (∀ (trace : Nat → ServiceOutcome) (tok : Nat) (ctx : String),
      (callOpenAIWithRetry trace tok ctx).attempts ≤ 3) ∧
    (∀ (trace : Nat → ServiceOutcome) (tok : Nat) (ctx : String),
      trace 0 = .rateLimit → trace 1 = .rateLimit → trace 2 = .rateLimit →
      callOpenAIWithRetry trace tok ctx =
        { result := fallbackContentFor ctx (extractHourFromContext ctx),
          attempts := 3, sleeps := [2, 4, 8] } ∧
      isDoubling [2, 4, 8] = true) ∧
    (∀ trace : Nat → AsyncOutcome, (asyncCallOpenAI trace).attempts ≤ 3) ∧
    (∀ trace : Nat → AsyncOutcome,
      trace 0 = .failure → trace 1 = .failure → trace 2 = .failure →
      asyncCallOpenAI trace =
        { result := .error (), attempts := 3, sleeps := [1, 2, 2, 4] }) := by
  refine ⟨?_, ?_, ?_, ?_⟩
  · intro trace tok ctx
    exact retryGo_attempts_le trace ctx _ 3 0 []
  · intro trace tok ctx h0 h1 h2
    refine ⟨?_, rfl⟩
    show retryGo trace ctx (extractHourFromContext ctx) 3 0 [] = _
    simp only [retryGo, h0, h1, h2]
    norm_num
  · intro trace
    exact asyncRetryGo_attempts_le trace 3 0 []
  · intro trace h0 h1 h2
    show asyncRetryGo trace 3 0 [] = _
    simp only [asyncRetryGo, h0, h1, h2]
    norm_num

/-- Witness for C7 at the all-rate-limit and all-failure traces. -/
theorem c7_witness :
    callOpenAIWithRetry (fun _ => .rateLimit) 6000 "external_reality_hour_3" =
      { result := fallbackContentFor "external_reality_hour_3"
          (extractHourFromContext "external_reality_hour_3"),
        attempts := 3, sleeps := [2, 4, 8] } ∧
    asyncCallOpenAI (fun _ => .failure) =
      { result := .error (), attempts := 3, sleeps := [1, 2, 2, 4] } :=
  ⟨(c7_retry_budget_and_backoff.2.1 (fun _ => .rateLimit) 6000
      "external_reality_hour_3" rfl rfl rfl).1,
   c7_retry_budget_and_backoff.2.2.2 (fun _ => .failure) rfl rfl rfl⟩

/-! ## C1 -/

/-- Claim C1 evaluation at the failing inputs: the partial-extraction tier's
`_create_partial_internal_monologue(43)` yields only 17 entries, covering
exactly the minutes 43–59 rather than `{0,...,59}`; the day pipeline's
`_create_fallback_hour_chunk` raises an IndexError (yields no result at all)
for a plan whose vocabulary band has a nonempty core vocabulary, because its
vocalization list then has at most 7 variants while minutes index variants
`0–7`; and the chunked direct-parse tier returns a parsed response unchanged
even when it carries a single entry. -/
theorem c1_schema_closure_violated :
    entriesLenOf (createPartialInternalMonologue 43) = 17 ∧
    entryMinutesOf (createPartialInternalMonologue 43) =
      (pyRangeList 43 60).map Int.ofNat ∧
    createFallbackHourChunk c1PlanLit [] = none ∧
    (fallbackVocalizations (loadVocabularyBand [] "2.1")).length = 7 ∧
    parseJsonSafely { parsed := some c1TinyResult, minuteMatches := [3] }
      "internal_monologue_hour_5" 5 = c1TinyResult ∧
    entriesLenOf c1TinyResult = 1 :=
  ⟨rfl, rfl, rfl, rfl, rfl, rfl⟩

/-! ## C2 -/

theorem filterMap_minute_of_map (f : Nat → Json)
    (h : ∀ i, minuteOfEntry (f i) = some (Int.ofNat i)) :
    ∀ l : List Nat, (l.map f).filterMap minuteOfEntry = l.map Int.ofNat := by
  intro l
  induction l with
  | nil => rfl
  | cons a t ih => simp [List.filterMap_cons, h a, ih]

theorem partialInternal_minutes (k : Nat) :
    entryMinutesOf (createPartialInternalMonologue k) =
      (pyRangeList k 60).map Int.ofNat := by
  have h := filterMap_minute_of_map partialInternalEntry (fun i => rfl) (pyRangeList k 60)
  exact h

theorem partialInternal_len (k : Nat) :
    entriesLenOf (createPartialInternalMonologue k) = 60 - k := by
  have h : ((pyRangeList k 60).map partialInternalEntry).length = 60 - k := by
    simp [pyRangeList]
  exact h

theorem fallbackInternal_len (hour : Int) :
    entriesLenOf (createFallbackInternalMonologue hour 0) = 60 := by
  have h : ((List.range 60).map (fallbackInternalEntry hour)).length = 60 := by simp
  exact h

/-- Claim C2 counterexample: for a response truncated mid-record at minute 42
(`json.loads` fails, the record regex captured minutes 0–42), the recovery
path actually taken (`_parse_json_safely`) skips every recovery tier and
returns the full 60-entry fallback template — the same result it returns for
a response with no salvageable records at all, so minutes 0–42 do not retain
any service content; and the partial extractor, when invoked, discards the 43
well-formed records and returns placeholders for minutes 43–59 only (17
entries, not 60). -/
theorem c2_truncated42_counterexample :
    parseJsonSafely truncated42 "internal_monologue_hour_5" 5 =
      createFallbackInternalMonologue 5 0 ∧
    parseJsonSafely { parsed := none, minuteMatches := [] }
      "internal_monologue_hour_5" 5 =
      parseJsonSafely truncated42 "internal_monologue_hour_5" 5 ∧
    entriesLenOf (parseJsonSafely truncated42 "internal_monologue_hour_5" 5) = 60 ∧
    extractPartialJson truncated42 "internal_monologue_hour_5" =
      some (createPartialInternalMonologue 43) ∧
    entriesLenOf (createPartialInternalMonologue 43) = 17 ∧
    entryMinutesOf (createPartialInternalMonologue 43) =
      (pyRangeList 43 60).map Int.ofNat :=
  ⟨rfl, rfl, rfl, rfl, rfl, rfl⟩

/-- Claim C2 (amended): for any raw response whose `json.loads` fails (for
instance one truncated mid-record at minute 42), the chunked recovery returns
the full 60-entry deterministic fallback template for the hour, independent
of the response's salvageable records; the separate partial-extraction
helper, when it is invoked, returns a structure containing placeholder
records for exactly the minutes after its last regex match (sorted
ascending), discarding the individually well-formed records. -/
theorem c2_recovery_behaviour (c : Content) (ctx : String) (hour : Int)
    (hp : c.parsed = none) (hctx : substrB "external_reality" ctx = false)
    (hm : c.minuteMatches ≠ []) :
    parseJsonSafely c ctx hour = createFallbackInternalMonologue hour 0 ∧
    entriesLenOf (parseJsonSafely c ctx hour) = 60 ∧
    ∃ last, c.minuteMatches.getLast? = some last ∧
      extractPartialJson c ctx = some (createPartialInternalMonologue (last + 1)) ∧
      entriesLenOf (createPartialInternalMonologue (last + 1)) = 60 - (last + 1) ∧
      entryMinutesOf (createPartialInternalMonologue (last + 1)) =
        (pyRangeList (last + 1) 60).map Int.ofNat := by
  have hparse : parseJsonSafely c ctx hour = createFallbackInternalMonologue hour 0 := by
    unfold parseJsonSafely
    rw [hp]
    unfold fallbackContentFor
    rw [hctx]
    simp
  refine ⟨hparse, by rw [hparse]; exact fallbackInternal_len hour, ?_⟩
  cases hl : c.minuteMatches.getLast? with
  | none => exact absurd (List.getLast?_eq_none_iff.mp hl) hm
  | some last =>
      refine ⟨last, rfl, ?_, partialInternal_len _, partialInternal_minutes _⟩
      unfold extractPartialJson
      rw [hl, hctx]
      simp

/-- Witness for C2 at the minute-42 truncation. -/
theorem c2_witness :
    truncated42.parsed = none ∧
    substrB "external_reality" "internal_monologue_hour_5" = false ∧
    truncated42.minuteMatches ≠ [] ∧
    (parseJsonSafely truncated42 "internal_monologue_hour_5" 5 =
       createFallbackInternalMonologue 5 0 ∧
     entriesLenOf (parseJsonSafely truncated42 "internal_monologue_hour_5" 5) = 60 ∧
     ∃ last, truncated42.minuteMatches.getLast? = some last ∧
       extractPartialJson truncated42 "internal_monologue_hour_5" =
         some (createPartialInternalMonologue (last + 1)) ∧
       entriesLenOf (createPartialInternalMonologue (last + 1)) = 60 - (last + 1) ∧
       entryMinutesOf (createPartialInternalMonologue (last + 1)) =
         (pyRangeList (last + 1) 60).map Int.ofNat) :=
  ⟨rfl, rfl, by decide,
   c2_recovery_behaviour truncated42 "internal_monologue_hour_5" 5 rfl rfl (by decide)⟩

/-! ## C8 -/

theorem buildChunksGo_spec (outcomes : Nat → Except Unit HourChunk)
    (files : VocabFiles) :
    ∀ (plans : List Json) (i0 : Nat),
      (∀ j, j < plans.length →
        ((plans.get? j).bind (fun p => resolveChunk outcomes files (i0 + j) p)).isSome) →
      ∃ cs, buildChunksGo outcomes files i0 plans = some cs ∧
        cs.length = plans.length ∧
        ∀ j, cs.get? j =
          (plans.get? j).bind (fun p => resolveChunk outcomes files (i0 + j) p) := by
  intro plans
  induction plans with
  | nil =>
      intro i0 _
      refine ⟨[], rfl, rfl, fun j => ?_⟩
      simp
  | cons p rest ih =>
      intro i0 hall
      have h0 := hall 0 (by simp)
      simp only [List.get?_cons_zero, Option.some_bind, Nat.add_zero] at h0
      obtain ⟨c, hc⟩ := Option.isSome_iff_exists.mp h0
      have hrest : ∀ j, j < rest.length →
          ((rest.get? j).bind
            (fun q => resolveChunk outcomes files ((i0 + 1) + j) q)).isSome := by
        intro j hj
        have := hall (j + 1) (by simpa using Nat.succ_lt_succ hj)
        have hidx : i0 + (j + 1) = (i0 + 1) + j := by omega
        simpa [hidx] using this
      obtain ⟨cs, hcs, hlen, hget⟩ := ih (i0 + 1) hrest
      refine ⟨c :: cs, ?_, by simp [hlen], fun j => ?_⟩
      · show (match resolveChunk outcomes files i0 p with
          | none => none
          | some c =>
              match buildChunksGo outcomes files (i0 + 1) rest with
              | none => none
              | some cs => some (c :: cs)) = some (c :: cs)
        rw [hc, hcs]
      · cases j with
        | zero => simp [hc]
        | succ j =>
            have hidx : i0 + (j + 1) = (i0 + 1) + j := by omega
            simpa [hidx] using hget j

/-- Claim C8 counterexample: with outcomes where exactly hour 7 raises, and a
timeline resolving vocabulary period `"2.1"` for the target week (whose
fallback vocabulary band has a nonempty core vocabulary), `generate_day`
itself raises instead of returning a 24-chunk `DayFile`: the substituted
`_create_fallback_hour_chunk` call raises an IndexError outside any `try`. -/
theorem c8_day_aborts_counterexample :
    outC 7 = .error () ∧
    (List.range 24).all (fun i => i == 7 || (outC i).isOk) = true ∧
    generateDay s0 d1 tC outC [] = none :=
  ⟨rfl, by decide, rfl⟩

/-- Claim C8 (amended): when generation for exactly hour 7 raises and the
substituted fallback-chunk construction for hour 7 succeeds (for instance
when the resolved vocabulary band is pre-linguistic), `generate_day` returns
a complete 24-chunk `DayFile` in which hour 7 is the fallback chunk built
from hour 7's plan and every other hour carries exactly its own outcome —
no single unit's exception aborts the day.  (Without that proviso the
fallback construction itself can raise and abort the day; see the
counterexample.) -/
theorem c8_partial_failure_isolation (s : Scenario) (d : Date)
    (t : TimelineData) (outcomes : Nat → Except Unit HourChunk)
    (files : VocabFiles)
    (hcg : s.caregivers ≠ [])
    (hemo : emotionsListOk
      (getWeeklyContext (plannerWeekIndex d s.child_profile.birthdate) t) = true)
    (h7 : outcomes 7 = .error ())
    (hok : ∀ i, i < 24 → i ≠ 7 → (outcomes i).isOk = true)
    (hfb : fallbackOkAt s d t files = true) :
    ∃ plans p7 fb df,
      planDay s d t = some plans ∧
      plans.get? 7 = some p7 ∧
      createFallbackHourChunk p7 files = some fb ∧
      generateDay s d t outcomes files = some df ∧
      df.hour_chunks.length = 24 ∧
      df.hour_chunks.get? 7 = some fb ∧
      (∀ i c, i < 24 → i ≠ 7 → outcomes i = .ok c →
        df.hour_chunks.get? i = some c) := by
  obtain ⟨plans, hplans⟩ :=
    Option.isSome_iff_exists.mp (planDay_isSome s d t hcg hemo)
  have hlen : plans.length = 24 := by simpa using mapOpt_length _ _ _ hplans
  have hget7 : (plans.get? 7).isSome := by
    cases hg : plans.get? 7 with
    | none => rw [List.get?_eq_none] at hg; omega
    | some p => rfl
  obtain ⟨p7, hp7⟩ := Option.isSome_iff_exists.mp hget7
  have hfb7 : (createFallbackHourChunk p7 files).isSome := by
    unfold fallbackOkAt at hfb
    rw [hplans] at hfb
    simp only [Option.some_bind] at hfb
    rw [hp7] at hfb
    exact hfb
  obtain ⟨fb, hfbEq⟩ := Option.isSome_iff_exists.mp hfb7
  have hres : ∀ j, j < plans.length →
      ((plans.get? j).bind (fun p => resolveChunk outcomes files (0 + j) p)).isSome := by
    intro j hj
    simp only [Nat.zero_add]
    cases hg : plans.get? j with
    | none => rw [List.get?_eq_none] at hg; omega
    | some p =>
        simp only [Option.some_bind]
        by_cases hj7 : j = 7
        · subst hj7
          rw [hp7] at hg
          cases hg
          unfold resolveChunk
          rw [h7, hfbEq]
          rfl
        · have := hok j (by omega) hj7
          unfold resolveChunk
          cases ho : outcomes j with
          | ok c => rfl
          | error e => rw [ho] at this; cases this
  obtain ⟨cs, hcs, hcslen, hcsget⟩ := buildChunksGo_spec outcomes files plans 0 hres
  refine ⟨plans, p7, fb,
    { monologue_id := s.monologue_id, date := dateIso d,
      provenance :=
        [("model", "gpt-4o-mini"), ("prompt_version", "consciousness.v1"),
         ("temperature", "0.6"), ("seed", toString s.seed)],
      hour_chunks := cs },
    hplans, hp7, hfbEq, ?_, ?_, ?_, ?_⟩
  · simp only [generateDay, hplans, hcs]
  · exact hcslen.trans hlen
  · show cs.get? 7 = some fb
    have hq := hcsget 7
    simp only [Nat.zero_add] at hq
    rw [hp7] at hq
    simp only [Option.some_bind] at hq
    rw [hq]
    unfold resolveChunk
    rw [h7, hfbEq]
  · intro i c hi hi7 hoc
    show cs.get? i = some c
    have hq := hcsget i
    simp only [Nat.zero_add] at hq
    rw [hq]
    cases hg : plans.get? i with
    | none => rw [List.get?_eq_none] at hg; omega
    | some p =>
        simp only [Option.some_bind]
        unfold resolveChunk
        rw [hoc]

/-- Witness for C8 at a concrete input: scenario `s0`, date `d1`, the empty
timeline (default weekly context, pre-linguistic vocabulary band, so the
fallback construction succeeds), no vocabulary files, and outcomes failing
exactly at hour 7. -/
theorem c8_witness :
    s0.caregivers ≠ [] ∧
    emotionsListOk
      (getWeeklyContext (plannerWeekIndex d1 s0.child_profile.birthdate) []) = true ∧
    outC 7 = .error () ∧
    (∀ i, i < 24 → i ≠ 7 → (outC i).isOk = true) ∧
    fallbackOkAt s0 d1 [] [] = true ∧
    (∃ plans p7 fb df,
      planDay s0 d1 [] = some plans ∧
      plans.get? 7 = some p7 ∧
      createFallbackHourChunk p7 [] = some fb ∧
      generateDay s0 d1 [] outC [] = some df ∧
      df.hour_chunks.length = 24 ∧
      df.hour_chunks.get? 7 = some fb ∧
      (∀ i c, i < 24 → i ≠ 7 → outC i = .ok c →
        df.hour_chunks.get? i = some c)) :=
  ⟨by decide, rfl, rfl, by decide, by rfl,
   c8_partial_failure_isolation s0 d1 [] outC [] (by decide) rfl rfl (by decide) (by rfl)⟩

end ChildLLM
